import Mathlib

/-!
# Verification of the dodger decision engine

A shallow embedding, over the real numbers, of the decision engine of the
dodger game (`AdvancedDodgerAI` together with its supporting stores
`ExperienceBuffer`, `WeightManager` and the neural-layer stack), translated
method by method from the TypeScript source.

Modelling conventions:
* JavaScript numbers are modelled as real numbers (`ℝ`); division by zero
  yields `0` as usual in Lean.  `x || d` on numbers is `jsOr x d`
  (`d` when `x = 0`, else `x`).
* `Infinity`-seeded minimum folds are modelled by `listMinInf`, returning
  `none` exactly when the fold never fires (the accumulator stays infinite);
  comparisons against the accumulator use `EReal` where the source mixes
  finite and infinite values.
* `Math.random()` / `Date.now()` are explicit parameters (`rng`, `now`).
* Array accesses are `List.getD`; JavaScript's stable `sort` with comparator
  `(a, b) => key b - key a` is `sortByDesc key` (insertion sort, stable).
* Exceptions are `Except Unit`; a `try/catch` is a `match` on the result.
-/

noncomputable section

open scoped Classical

namespace Dodger

/-- JavaScript `x || d` on numbers (`0` is the only falsy number in `ℝ`). -/
def jsOr (x d : ℝ) : ℝ := if x = 0 then d else x

/-- `Math.hypot x y`. -/
def hypot (x y : ℝ) : ℝ := Real.sqrt (x ^ 2 + y ^ 2)

/-- `Math.round`: round half up, as an integer. -/
def jsRound (x : ℝ) : ℤ := ⌊x + 1 / 2⌋

/-- `Math.atan2 y x`, with the JavaScript case split; range `[-π, π]`. -/
def jsAtan2 (y x : ℝ) : ℝ :=
  if 0 < x then Real.arctan (y / x)
  else if x < 0 ∧ 0 ≤ y then Real.arctan (y / x) + Real.pi
  else if x < 0 ∧ y < 0 then Real.arctan (y / x) - Real.pi
  else if x = 0 ∧ 0 < y then Real.pi / 2
  else if x = 0 ∧ y < 0 then -(Real.pi / 2)
  else 0

/-- `Math.min(...)` folded over a list seeded with `Infinity`: `none` iff the
list is empty, otherwise the minimum. -/
def listMinInf : List ℝ → Option ℝ
  | [] => none
  | a :: l => some (l.foldl min a)

/-- `Math.min(...)` over a nonempty spread (the default is never reached at
call sites, which guard for nonemptiness). -/
def listMin (l : List ℝ) : ℝ := (listMinInf l).getD 0

/-- `Math.max(...)` over a nonempty spread. -/
def listMax : List ℝ → ℝ
  | [] => 0
  | a :: l => l.foldl max a

/-- An `Infinity`-seeded minimum as an extended real (for the loops that
compare it against another accumulator). -/
def erealOfMinInf (l : List ℝ) : EReal :=
  match listMinInf l with
  | none => ⊤
  | some m => (m : EReal)

/-- JavaScript's stable `Array.prototype.sort` with comparator
`(a, b) => key b - key a` (descending by `key`, ties keep order). -/
def sortByDesc {α : Type} (key : α → ℝ) (l : List α) : List α :=
  l.insertionSort fun a b => key b ≤ key a

/-- JavaScript's stable `Array.prototype.sort` with comparator
`(a, b) => key a - key b` (ascending by `key`, ties keep order). -/
def sortByAsc {α : Type} (key : α → ℝ) (l : List α) : List α :=
  l.insertionSort fun a b => key a ≤ key b

/-! ## Data model (`GameState` and friends, from the source interfaces) -/

structure Player where
  x : ℝ
  y : ℝ
  r : ℝ
  speed : ℝ

structure Vel where
  x : ℝ
  y : ℝ

/-- A hazard record.  `turnRate` is optional in the source (guarded there by
`?? Math.PI`); `zigFreq`/`zigAmp` are used unguarded by the predictor, so a
well-formed zigzag hazard carries them — they are plain reals here. -/
structure Hazard where
  x : ℝ
  y : ℝ
  r : ℝ
  dirX : ℝ
  dirY : ℝ
  baseSpeed : ℝ
  kind : String
  t : ℝ
  life : ℝ
  turnRate : Option ℝ
  zigFreq : ℝ
  zigAmp : ℝ

structure Pickup where
  x : ℝ
  y : ℝ
  r : ℝ
  life : ℝ
  maxLife : ℝ
  type : String

structure GameState where
  width : ℝ
  height : ℝ
  player : Player
  playerVel : Vel
  hazards : List Hazard
  pickups : List Pickup
  elapsed : ℝ
  lives : ℝ
  maxLives : ℝ

/-! ## Kinematic predictor (`predictEnemyPositionPhysics`) -/

/-- `AdvancedDodgerAI.predictEnemyPositionPhysics`: deterministic, type-aware
prediction of a hazard's position after `deltaTime`. -/
def predictEnemyPositionPhysics (hazard : Hazard) (gameState : GameState)
    (deltaTime : ℝ) : ℝ × ℝ :=
  let x := hazard.x
  let y := hazard.y
  let dirX := hazard.dirX
  let dirY := hazard.dirY
  let t := hazard.t + deltaTime
  if hazard.kind = "tracker" then
    let denom := hypot (gameState.player.x - x) (jsOr (gameState.player.y - y) 1)
    let targetDirX := (gameState.player.x - x) / denom
    let targetDirY := (gameState.player.y - y) / denom
    let dot := dirX * targetDirX + dirY * targetDirY
    let theta := Real.arccos (max (-1) (min 1 dot))
    let maxTurn := hazard.turnRate.getD Real.pi * deltaTime
    let dir' :=
      if 1 / 10000 < theta then
        let k := min 1 (maxTurn / theta)
        let dx := (1 - k) * dirX + k * targetDirX
        let dy := (1 - k) * dirY + k * targetDirY
        let n := jsOr (hypot dx dy) 1
        (dx / n, dy / n)
      else (dirX, dirY)
    (x + dir'.1 * hazard.baseSpeed * deltaTime, y + dir'.2 * hazard.baseSpeed * deltaTime)
  else if hazard.kind = "zigzag" then
    let oscillation := Real.sin (t * hazard.zigFreq) * hazard.zigAmp
    let effVX := dirX * hazard.baseSpeed + -dirY * oscillation
    let effVY := dirY * hazard.baseSpeed + dirX * oscillation
    (x + effVX * deltaTime, y + effVY * deltaTime)
  else
    (x + dirX * hazard.baseSpeed * deltaTime, y + dirY * hazard.baseSpeed * deltaTime)

/-! ## Experience buffer -/

structure Experience where
  state : List ℝ
  action : ℕ
  reward : ℝ
  nextState : Option (List ℝ)
  done : Bool
  priority : ℝ

instance : Inhabited Experience := ⟨⟨[], 0, 0, none, false, 0⟩⟩

structure ExperienceBuffer where
  buffer : List Experience
  maxSize : ℕ
  position : ℕ

/-- `ExperienceBuffer.add`: append below capacity, else ring-overwrite. -/
def ExperienceBuffer.add (b : ExperienceBuffer) (experience : Experience) :
    ExperienceBuffer :=
  if b.buffer.length < b.maxSize then
    { b with buffer := b.buffer ++ [experience] }
  else
    { b with buffer := b.buffer.set b.position experience,
             position := (b.position + 1) % b.maxSize }

/-- `ExperienceBuffer.sample`: everything when under `batchSize`, else the top
`⌊0.8·batchSize⌋` by priority plus uniform random draws (with replacement);
`rand i` is the `i`-th `Math.random()` call. -/
def ExperienceBuffer.sample (b : ExperienceBuffer) (batchSize : ℕ)
    (rand : ℕ → ℝ) : List Experience :=
  if b.buffer.length < batchSize then
    b.buffer
  else
    let sorted := sortByDesc (fun e => e.priority) b.buffer
    let highPriorityCount := (⌊(batchSize : ℝ) * 0.8⌋).toNat
    let samples := sorted.take highPriorityCount
    let remainingCount := batchSize - samples.length
    samples ++ (List.range remainingCount).map fun i =>
      b.buffer.getD (⌊rand i * b.buffer.length⌋).toNat default

def ExperienceBuffer.size (b : ExperienceBuffer) : ℕ := b.buffer.length

/-! ## Weight store (`WeightManager`) -/

structure WeightEntry (α : Type) where
  id : String
  timestamp : ℝ
  performance : ℝ
  data : α

structure WeightManager (α : Type) where
  weights : List (WeightEntry α)
  maxWeights : ℕ

def WeightManager.initial (α : Type) : WeightManager α := ⟨[], 10⟩

/-- `WeightManager.saveWeights`: append a snapshot (id built from `Date.now()`
and a random suffix, both parameters), then if over `maxWeights` sort
descending by performance and truncate.  The deep copy of `networkData` and
the `localStorage` write have no observable effect on the store. -/
def WeightManager.saveWeights {α : Type} (m : WeightManager α)
    (performance : ℝ) (networkData : α) (now : ℕ) (noise : String) :
    WeightManager α × String :=
  let id := "weights_" ++ toString now ++ "_" ++ noise
  let weightEntry : WeightEntry α :=
    { id := id, timestamp := (now : ℝ), performance := performance,
      data := networkData }
  let ws := m.weights ++ [weightEntry]
  let ws' :=
    if m.maxWeights < ws.length then
      (sortByDesc (fun w => w.performance) ws).take m.maxWeights
    else ws
  ({ m with weights := ws' }, id)

def WeightManager.getBestWeights {α : Type} (m : WeightManager α) : Option α :=
  match m.weights with
  | [] => none
  | w :: ws => some (ws.foldl (fun best current =>
      if best.performance < current.performance then current else best) w).data

/-! ## Neural layers -/

/-- Per-layer random sources: `w i j` is the `Math.random()` draw for weight
`(i, j)`, `b i` the draw for bias `i`. -/
structure RngL where
  w : ℕ → ℕ → ℝ
  b : ℕ → ℝ

structure NeuralLayer where
  weights : List (List ℝ)
  biases : List ℝ
  inputSize : ℕ
  outputSize : ℕ
  lastInitTime : ℝ

/-- `initCooldown`: 2 seconds, in milliseconds. -/
def initCooldown : ℝ := 2000

/-- Xavier initialization (the body of `initializeWeights` past its dimension
guard; the internal row validations never fire on this construction). -/
def xavierWeights (inputSize outputSize : ℕ) (rand : ℕ → ℕ → ℝ) :
    List (List ℝ) :=
  let scale := Real.sqrt (6 / ((inputSize : ℝ) + outputSize))
  (List.range outputSize).map fun i =>
    (List.range inputSize).map fun j => (rand i j - 0.5) * 2 * scale

/-- `NeuralLayer.initializeWeights`: throws on a non-positive dimension,
otherwise Xavier initialization. -/
def initializeWeightsE (inputSize outputSize : ℕ) (rand : ℕ → ℕ → ℝ) :
    Except Unit (List (List ℝ)) :=
  if inputSize = 0 ∨ outputSize = 0 then .error ()
  else .ok (xavierWeights inputSize outputSize rand)

/-- Fresh bias vector: `(Math.random() - 0.5) * 0.2` per output unit. -/
def initBiases (outputSize : ℕ) (rand : ℕ → ℝ) : List ℝ :=
  (List.range outputSize).map fun i => (rand i - 0.5) * 0.2

/-- The `new NeuralLayer(inputSize, outputSize)` constructor; every call site
passes positive literal sizes, for which the constructor never throws. -/
def NeuralLayer.create (inputSize outputSize : ℕ) (rng : RngL) (now : ℝ) :
    NeuralLayer :=
  { weights := xavierWeights inputSize outputSize rng.w
    biases := initBiases outputSize rng.b
    inputSize := inputSize
    outputSize := outputSize
    lastInitTime := now }

/-- Reinitialization inside `NeuralLayer.forward`: fresh weights and biases,
stamping `lastInitTime` with the current time. -/
def NeuralLayer.reinit (l : NeuralLayer) (now : ℝ) (rng : RngL) :
    Except Unit NeuralLayer :=
  (initializeWeightsE l.inputSize l.outputSize rng.w).map fun w =>
    { l with weights := w, biases := initBiases l.outputSize rng.b,
             lastInitTime := now }

/-- One output row of a layer: bias plus dot product, with the source's
`|| 0` guards rendered as `getD … 0`. -/
def NeuralLayer.rowOut (l : NeuralLayer) (inputs : List ℝ) (i : ℕ) : ℝ :=
  l.biases.getD i 0 +
    ((List.range l.inputSize).map fun j =>
      inputs.getD j 0 * (l.weights.getD i []).getD j 0).sum

/-- The row loop of `NeuralLayer.forward` when no reinitialization fires:
well-shaped rows produce dot products, malformed rows produce `0` (the
cooldown path).  The output has exactly `outputSize` entries, which is what
the source's final pad/truncate enforces. -/
def NeuralLayer.computeRows (l : NeuralLayer) (inputs : List ℝ) : List ℝ :=
  (List.range l.outputSize).map fun i =>
    if (l.weights.getD i []).length = l.inputSize then l.rowOut inputs i else 0

/-- The row loop of `NeuralLayer.forward`: on a malformed row with the
cooldown expired it reinitializes the whole matrix and restarts from row 0
(the restarted pass is inside the fresh cooldown window, so it cannot
reinitialize again). -/
def NeuralLayer.forwardRows (l : NeuralLayer) (now : ℝ) (rng : RngL)
    (inputs : List ℝ) : Except Unit (List ℝ × NeuralLayer) :=
  if (∃ i < l.outputSize, (l.weights.getD i []).length ≠ l.inputSize) ∧
      initCooldown < now - l.lastInitTime then
    (l.reinit now rng).map fun l' => (l'.computeRows inputs, l')
  else .ok (l.computeRows inputs, l)

/-- `NeuralLayer.forward`: matrix-shape self-check (reinitialize when the
cooldown has expired, else return zeros), input-dimension check, then the row
loop. -/
def NeuralLayer.forward (l : NeuralLayer) (now : ℝ) (rng : RngL)
    (inputs : List ℝ) : Except Unit (List ℝ × NeuralLayer) :=
  if l.weights.length ≠ l.outputSize then
    if initCooldown < now - l.lastInitTime then
      match l.reinit now rng with
      | .error e => .error e
      | .ok l' =>
        if inputs.length ≠ l'.inputSize then
          .ok (List.replicate l'.outputSize 0, l')
        else l'.forwardRows now rng inputs
    else .ok (List.replicate l.outputSize 0, l)
  else if inputs.length ≠ l.inputSize then
    .ok (List.replicate l.outputSize 0, l)
  else l.forwardRows now rng inputs

/-! ## Activation functions -/

namespace ActivationFunctions

def tanh (x : ℝ) : ℝ := Real.tanh x

/-- Temperature-scaled, max-shifted softmax. -/
def softmax (inputs : List ℝ) (temperature : ℝ) : List ℝ :=
  let maxInput := listMax inputs
  let expInputs := inputs.map fun x => Real.exp ((x - maxInput) / temperature)
  let sumExp := expInputs.sum
  expInputs.map fun e => e / sumExp

end ActivationFunctions

/-! ## Weight-snapshot documents (the JSON export/import format) -/

structure LayerData where
  weights : List (List ℝ)
  biases : List ℝ

structure MetaData where
  episodes : ℝ
  averagePerformance : ℝ
  bestPerformance : Option ℝ
  explorationRate : ℝ
  version : Option String

/-- The structured content of an exported weight document; absent layers or
metadata are `none` (the source checks presence field by field). -/
structure NetworkData where
  inputLayer : Option LayerData
  hiddenLayer1 : Option LayerData
  hiddenLayer2 : Option LayerData
  hiddenLayer3 : Option LayerData
  valueHead : Option LayerData
  policyHead : Option LayerData
  metadata : Option MetaData

/-! ## The agent state -/

structure CenterTracker where
  lastCenterDistance : ℝ
  timeAwayFromCenter : ℝ
  totalCenterTime : ℝ
  forceBackToCenterCount : ℝ
  lastForceTime : ℝ

structure PosMem where
  x : ℝ
  y : ℝ
  time : ℝ

instance : Inhabited PosMem := ⟨⟨0, 0, 0⟩⟩

structure BorderMem where
  direction : ℝ × ℝ
  penalty : ℝ
  time : ℝ

structure AdvancedDodgerAI where
  inputLayer : NeuralLayer
  hiddenLayer1 : NeuralLayer
  hiddenLayer2 : NeuralLayer
  hiddenLayer3 : NeuralLayer
  valueHead : NeuralLayer
  policyHead : NeuralLayer
  experienceBuffer : ExperienceBuffer
  weightManager : WeightManager NetworkData
  learningRate : ℝ
  explorationRate : ℝ
  temperature : ℝ
  episodeCount : ℝ
  totalReward : ℝ
  bestPerformance : ℝ
  averagePerformance : ℝ
  lastFeatures : List ℝ
  lastAction : ℕ
  centerTracker : CenterTracker
  recentPositions : List PosMem
  borderAvoidanceMemory : List BorderMem
  maxMemorySize : ℕ

def ACTION_COUNT : ℕ := 9

/-- The defensive default policy: uniform over the 9 actions. -/
def uniformPolicy : List ℝ := List.replicate ACTION_COUNT ((1 : ℝ) / ACTION_COUNT)

/-- `AdvancedDodgerAI.forward`: chained layer evaluation with dimension
checks; every failed check — and every exception caught by the surrounding
`try` — degrades to value `0` and the uniform policy.  Mutations performed
before an exception persist, hence the threaded agent state. -/
def AdvancedDodgerAI.forward (s : AdvancedDodgerAI) (inputs : List ℝ)
    (now : ℝ) (rng : ℕ → RngL) : (ℝ × List ℝ) × AdvancedDodgerAI :=
  if inputs.length ≠ 200 then ((0, uniformPolicy), s)
  else
    match s.inputLayer.forward now (rng 0) inputs with
    | .error _ => ((0, uniformPolicy), s)
    | .ok (h1, L1) =>
      let s1 := { s with inputLayer := L1 }
      if h1.length ≠ 1024 then ((0, uniformPolicy), s1)
      else
        let hidden1 := h1.map ActivationFunctions.tanh
        match s1.hiddenLayer1.forward now (rng 1) hidden1 with
        | .error _ => ((0, uniformPolicy), s1)
        | .ok (h2, L2) =>
          let s2 := { s1 with hiddenLayer1 := L2 }
          if h2.length ≠ 1536 then ((0, uniformPolicy), s2)
          else
            let hidden2 := h2.map ActivationFunctions.tanh
            match s2.hiddenLayer2.forward now (rng 2) hidden2 with
            | .error _ => ((0, uniformPolicy), s2)
            | .ok (h3, L3) =>
              let s3 := { s2 with hiddenLayer2 := L3 }
              if h3.length ≠ 1024 then ((0, uniformPolicy), s3)
              else
                let hidden3 := h3.map ActivationFunctions.tanh
                match s3.hiddenLayer3.forward now (rng 3) hidden3 with
                | .error _ => ((0, uniformPolicy), s3)
                | .ok (h4, L4) =>
                  let s4 := { s3 with hiddenLayer3 := L4 }
                  if h4.length ≠ 768 then ((0, uniformPolicy), s4)
                  else
                    let hidden4 := h4.map ActivationFunctions.tanh
                    match s4.valueHead.forward now (rng 4) hidden4 with
                    | .error _ => ((0, uniformPolicy), s4)
                    | .ok (vo, LV) =>
                      let s5 := { s4 with valueHead := LV }
                      if vo.length ≠ 1 then ((0, uniformPolicy), s5)
                      else
                        let value :=
                          ActivationFunctions.tanh (jsOr (vo.getD 0 0) 0)
                        match s5.policyHead.forward now (rng 5) hidden4 with
                        | .error _ => ((0, uniformPolicy), s5)
                        | .ok (po, LP) =>
                          let s6 := { s5 with policyHead := LP }
                          if po.length ≠ ACTION_COUNT then
                            ((0, uniformPolicy), s6)
                          else
                            ((value,
                              ActivationFunctions.softmax po s.temperature),
                             s6)

/-! ## Feature extraction (`extractFeatures` and its sub-extractors) -/

/-- `analyzePredictiveContext` (12 features): 4 prediction horizons × 3
aggregated threat indicators. -/
def analyzePredictiveContext (gameState : GameState) : List ℝ :=
  let player := gameState.player
  let timeHorizons : List ℝ := [0.5, 1.0, 2.0, 3.0]
  timeHorizons.flatMap fun timeHorizon =>
    let acc := gameState.hazards.foldl (fun (acc : ℝ × ℝ × ℝ) hazard =>
      let predictedPos := predictEnemyPositionPhysics hazard gameState timeHorizon
      let threatDistance :=
        hypot (predictedPos.1 - player.x) (predictedPos.2 - player.y)
      let safeDistance := hazard.r + player.r + 50
      if threatDistance < safeDistance * 2.5 then
        let threatIntensity :=
          max 0 ((safeDistance * 2.5 - threatDistance) / (safeDistance * 2.5))
        let totalThreat := acc.1 + threatIntensity
        let criticalThreats :=
          if threatDistance < safeDistance * 1.2 then acc.2.1 + 1 else acc.2.1
        let pcx := gameState.width / 2 - player.x
        let pcy := gameState.height / 2 - player.y
        let playerToCenterDist := hypot pcx pcy
        let centerPushing :=
          if 0 < playerToCenterDist then
            let epx := player.x - predictedPos.1
            let epy := player.y - predictedPos.2
            let enemyToPlayerDist := hypot epx epy
            if 0 < enemyToPlayerDist then
              let alignment :=
                (epx * pcx + epy * pcy) / (enemyToPlayerDist * playerToCenterDist)
              if 0.3 < alignment then acc.2.2 + alignment * threatIntensity
              else acc.2.2
            else acc.2.2
          else acc.2.2
        (totalThreat, criticalThreats, centerPushing)
      else acc) ((0 : ℝ), (0 : ℝ), (0 : ℝ))
    let hazardCount : ℝ := max 1 (gameState.hazards.length : ℝ)
    [Real.tanh (acc.1 / hazardCount), min 1 (acc.2.1 / hazardCount),
     Real.tanh (acc.2.2 / hazardCount)]

/-- `analyzeCenterPositioning` (10 features). -/
def analyzeCenterPositioning (g : GameState) : List ℝ :=
  let player := g.player
  let centerX := g.width / 2
  let centerY := g.height / 2
  let toCenterX := centerX - player.x
  let toCenterY := centerY - player.y
  let distanceToCenter := hypot toCenterX toCenterY
  let maxDistance := hypot (g.width / 2) (g.height / 2)
  let normalizedDistance := distanceToCenter / maxDistance
  let distancePenalty := normalizedDistance ^ (1.5 : ℝ)
  let comfortRadius := maxDistance * 0.4
  let centerComfort := max 0 (1 - distanceToCenter / comfortRadius)
  let enhancedComfort := centerComfort ^ (0.8 : ℝ)
  let edgeMargin : ℝ := 150
  let leftPressure := max 0 ((edgeMargin - player.x) / edgeMargin)
  let rightPressure := max 0 ((player.x - (g.width - edgeMargin)) / edgeMargin)
  let topPressure := max 0 ((edgeMargin - player.y) / edgeMargin)
  let bottomPressure := max 0 ((player.y - (g.height - edgeMargin)) / edgeMargin)
  let totalBoundaryPressure :=
    leftPressure + rightPressure + topPressure + bottomPressure
  let centerDangerRadius : ℝ := 180
  let centerSafety := g.hazards.foldl (fun acc hazard =>
    let hazardToCenter := hypot (hazard.x - centerX) (hazard.y - centerY)
    if hazardToCenter < centerDangerRadius then
      acc * max 0.1 (hazardToCenter / centerDangerRadius)
    else acc) 1.0
  [distancePenalty,
   toCenterX / maxDistance * 2.0,
   toCenterY / maxDistance * 2.0,
   enhancedComfort * 3.0,
   leftPressure ^ (0.7 : ℝ) * 2.5,
   rightPressure ^ (0.7 : ℝ) * 2.5,
   topPressure ^ (0.7 : ℝ) * 2.5,
   bottomPressure ^ (0.7 : ℝ) * 2.5,
   totalBoundaryPressure ^ (1.2 : ℝ) * 3.0,
   centerSafety * 2.0]

/-- `extractAllEnemyInformation` (120 features): up to 20 hazards sorted
nearest-first, 6 features each, zero-padded. -/
def extractAllEnemyInformation (g : GameState) : List ℝ :=
  let player := g.player
  let width := g.width
  let height := g.height
  let withDist := g.hazards.map fun h =>
    (h, hypot (h.x - player.x) (h.y - player.y))
  let sorted := sortByAsc (fun p => p.2) withDist
  let maxDistance := hypot width height
  (List.range 20).flatMap fun i =>
    match sorted.get? i with
    | some (enemy, distance) =>
      let nextX := enemy.x + enemy.dirX * enemy.baseSpeed
      let nextY := enemy.y + enemy.dirY * enemy.baseSpeed
      let weight := Real.exp (-distance / (maxDistance * 0.3))
      [enemy.x / width, enemy.y / height,
       max 0 (min 1 (nextX / width)), max 0 (min 1 (nextY / height)),
       enemy.r / 50, weight]
    | none => [0, 0, 0, 0, 0, 0]

/-- `extractPickupPositions` (20 features): up to 5 pickups sorted by a
blended urgency/proximity score, 4 features each, zero-padded. -/
def extractPickupPositions (g : GameState) : List ℝ :=
  let player := g.player
  let width := g.width
  let height := g.height
  let diag := hypot width height
  let withInfo := g.pickups.map fun p =>
    (p, hypot (p.x - player.x) (p.y - player.y), (p.maxLife - p.life) / p.maxLife)
  let sorted := (sortByDesc
    (fun q : Pickup × ℝ × ℝ => q.2.2 * 2 + (1 - q.2.1 / diag)) withInfo).take 5
  (List.range 5).flatMap fun i =>
    match sorted.get? i with
    | some (pickup, _, _) =>
      [pickup.x / width, pickup.y / height, pickup.life / pickup.maxLife,
       if pickup.type = "heart" then 1 else 0]
    | none => [0, 0, 0, 0]

/-- `analyzeGlobalThreats` (12 zeros without hazards, 11 features with). -/
def analyzeGlobalThreats (g : GameState) : List ℝ :=
  let player := g.player
  let hazards := g.hazards
  if hazards.length = 0 then List.replicate 12 0
  else
    let distances := hazards.map fun h => hypot (h.x - player.x) (h.y - player.y)
    let minDistance := listMin distances
    let avgDistance := distances.sum / (distances.length : ℝ)
    let maxDistance := listMax distances
    let nearbyThreats := (hazards.filter fun h =>
      hypot (h.x - player.x) (h.y - player.y) < 150).length
    let dirFeats := ([((-1 : ℝ), (0 : ℝ)), (1, 0), (0, -1), (0, 1)]).map fun d =>
      Real.tanh (hazards.foldl (fun acc hazard =>
        let tx := hazard.x - player.x
        let ty := hazard.y - player.y
        let distance := hypot tx ty
        if 0 < distance then
          let dotProduct := (tx * d.1 + ty * d.2) / distance
          if 0.5 < dotProduct then acc + Real.exp (-distance / 80) * dotProduct
          else acc
        else acc) 0)
    let minTTC := hazards.foldl (fun (acc : Option ℝ) hazard =>
      let relX := hazard.x - player.x
      let relY := hazard.y - player.y
      let relVX := hazard.dirX * hazard.baseSpeed - g.playerVel.x
      let relVY := hazard.dirY * hazard.baseSpeed - g.playerVel.y
      let a := relVX ^ 2 + relVY ^ 2
      let b := 2 * (relX * relVX + relY * relVY)
      let c := relX ^ 2 + relY ^ 2 - (hazard.r + player.r) ^ 2
      if 0 < a then
        let discriminant := b ^ 2 - 4 * a * c
        if 0 ≤ discriminant then
          let tcol := (-b - Real.sqrt discriminant) / (2 * a)
          if 0 < tcol ∧ (match acc with | none => True | some m => tcol < m)
          then some tcol else acc
        else acc
      else acc) none
    let ttcFeat := match minTTC with
      | none => 1    -- `Math.tanh (Infinity / 3) = 1`
      | some tcol => Real.tanh (tcol / 3)
    let trackerThreat := (hazards.filter fun h => h.kind = "tracker").foldl
      (fun acc tr =>
        acc + Real.exp (-(hypot (tr.x - player.x) (tr.y - player.y)) / 100)) 0
    let cluster :=
      if 1 < hazards.length then
        let cx := (hazards.map fun h => h.x).sum / (hazards.length : ℝ)
        let cy := (hazards.map fun h => h.y).sum / (hazards.length : ℝ)
        let avgD := (hazards.map fun h => hypot (h.x - cx) (h.y - cy)).sum /
          (hazards.length : ℝ)
        Real.tanh (avgD / 200)
      else 0
    [Real.tanh (minDistance / 100), Real.tanh (avgDistance / 100),
     Real.tanh (maxDistance / 100),
     (nearbyThreats : ℝ) / max 1 (hazards.length : ℝ)]
      ++ dirFeats ++ [ttcFeat, Real.tanh trackerThreat, cluster]

/-- `analyzeSafetyAndBoundary` (10 features): edge distances, a 2×2 safety
grid, and the safest 100-unit 4-way direction. -/
def analyzeSafetyAndBoundary (g : GameState) : List ℝ :=
  let player := g.player
  let width := g.width
  let height := g.height
  let edge := [player.x / width, (width - player.x) / width,
               player.y / height, (height - player.y) / height]
  let grid := ([((0 : ℕ), (0 : ℕ)), (0, 1), (1, 0), (1, 1)]).map fun ij =>
    let centerX := ((ij.1 : ℝ) + 0.5) * width / 2
    let centerY := ((ij.2 : ℝ) + 0.5) * height / 2
    Real.tanh (g.hazards.foldl (fun acc hazard =>
      acc * min 1 (hypot (hazard.x - centerX) (hazard.y - centerY) /
        (hazard.r + 80))) 1)
  let best := ([((-1 : ℝ), (0 : ℝ)), (1, 0), (0, -1), (0, 1)]).foldl
    (fun (acc : ℝ × ℝ × ℝ) d =>
      let checkX := player.x + d.1 * 100
      let checkY := player.y + d.2 * 100
      if checkX < 0 ∨ width < checkX ∨ checkY < 0 ∨ height < checkY then acc
      else
        let safetyScore := g.hazards.foldl (fun acc2 hazard =>
          acc2 * min 1 (hypot (hazard.x - checkX) (hazard.y - checkY) /
            (hazard.r + 50))) 1
        if acc.1 < safetyScore then (safetyScore, d.1, d.2) else acc)
    ((-1 : ℝ), (0 : ℝ), (0 : ℝ))
  edge ++ grid ++ [best.2.1, best.2.2]

/-- `AdvancedDodgerAI.extractFeatures`: the 200-feature pipeline, with the
final zero-pad / truncate enforcing the length invariant. -/
def extractFeatures (gameState : GameState) (difficulty : ℝ) : List ℝ :=
  let player := gameState.player
  let width := gameState.width
  let height := gameState.height
  let base : List ℝ :=
    [player.x / width, player.y / height,
     hypot gameState.playerVel.x gameState.playerVel.y / player.speed,
     gameState.playerVel.x / player.speed,
     gameState.playerVel.y / player.speed,
     min difficulty 5 / 5,
     gameState.elapsed / 200,
     min (gameState.lives / gameState.maxLives) 1.0]
  let features := base ++ analyzePredictiveContext gameState
    ++ analyzeCenterPositioning gameState
    ++ extractAllEnemyInformation gameState
    ++ extractPickupPositions gameState
    ++ analyzeGlobalThreats gameState
    ++ analyzeSafetyAndBoundary gameState
  (features ++ List.replicate (200 - features.length) 0).take 200

/-! ## Decision-cascade helpers -/

/-- Coercion of a (classically decidable) proposition into the `Bool` needed
by `List.filter` / `List.find?`. -/
def pbool (p : Prop) : Bool := if p then true else false

lemma pbool_iff (p : Prop) : pbool p = true ↔ p := by
  unfold pbool
  split_ifs with h <;> simp [h]

/-- The 9-entry movement lookup used by `decide`, `applyBoundaryAvoidance`
and the anti-oscillation memory (integer diagonals). -/
def actionMapInt : List (ℝ × ℝ) :=
  [(0, 0), (-1, 0), (1, 0), (0, -1), (0, 1), (-1, -1), (1, -1), (-1, 1), (1, 1)]

/-- The 9-entry action-vector table with normalized diagonals (`±0.707`),
re-declared throughout the source. -/
def actionVecs707 : List (ℝ × ℝ) :=
  [(0, 0), (-1, 0), (1, 0), (0, -1), (0, 1),
   (-0.707, -0.707), (0.707, -0.707), (-0.707, 0.707), (0.707, 0.707)]

/-- `getActionForDirection`: map a direction vector to the nearest of the 8
movement actions via `atan2` and a 45°-step rounding; the table has no zero
entry, so the trailing `|| 1` only covers the impossible out-of-range read
(rendered by the `getD` default). -/
def getActionForDirection (dx dy : ℝ) : ℕ :=
  let angle := jsAtan2 dy dx
  let angleStep := Real.pi / 4
  let actionIndex := jsRound (angle / angleStep)
  [2, 6, 3, 5, 1, 7, 4, 8].getD ((actionIndex + 8) % 8).toNat 1

/-- `calculateEscapeDirections`: the 8-way directions (actions 1–8) whose
100-unit-ahead position stays 50 units inside the field and 60 units clear
of every hazard.  The `nearestThreat` argument is unused in the source too. -/
def calculateEscapeDirections (g : GameState) (nearestThreat : Option Hazard) :
    List ℕ :=
  let player := g.player
  let directions : List (ℝ × ℝ) :=
    [(-1, 0), (1, 0), (0, -1), (0, 1),
     (-0.707, -0.707), (0.707, -0.707), (-0.707, 0.707), (0.707, 0.707)]
  ((List.range 8).filter fun i => pbool (
    let d := directions.getD i (0, 0)
    let futureX := player.x + d.1 * 100
    let futureY := player.y + d.2 * 100
    ¬(futureX < 50 ∨ g.width - 50 < futureX ∨
      futureY < 50 ∨ g.height - 50 < futureY) ∧
    ∀ hazard ∈ g.hazards,
      ¬(hypot (futureX - hazard.x) (futureY - hazard.y) <
        hazard.r + player.r + 60))).map (· + 1)

structure ThreatAnalysis where
  immediateDanger : Prop
  highRisk : Prop
  predictedDanger : Prop
  dangerLevel : ℝ
  predictedDangerLevel : ℝ
  nearestThreat : Option Hazard
  escapeDirections : List ℕ

/-- `analyzeRealTimeThreat`: current and 0.5s-predicted danger aggregation
over all hazards, nearest-hazard tracking, and escape directions. -/
def analyzeRealTimeThreat (g : GameState) : ThreatAnalysis :=
  let player := g.player
  let acc := g.hazards.foldl
    (fun (acc : ℝ × ℝ × Option (ℝ × Hazard)) hazard =>
      let currentDistance := hypot (hazard.x - player.x) (hazard.y - player.y)
      let combinedRadius := hazard.r + player.r
      let near := match acc.2.2 with
        | none => some (currentDistance, hazard)
        | some (m, h0) =>
          if currentDistance < m then some (currentDistance, hazard)
          else some (m, h0)
      let maxT1 :=
        if currentDistance < combinedRadius + 30 then max acc.1 1.0
        else if currentDistance < combinedRadius + 80 then
          max acc.1 (Real.exp (-(currentDistance - combinedRadius) / 40))
        else acc.1
      let futurePos := predictEnemyPositionPhysics hazard g 0.5
      let predictedDistance :=
        hypot (futurePos.1 - player.x) (futurePos.2 - player.y)
      let predT :=
        if predictedDistance < combinedRadius + 50 then
          max acc.2.1 (Real.exp (-(predictedDistance - combinedRadius) / 35))
        else acc.2.1
      let hazardVelocity :=
        hypot (hazard.dirX * hazard.baseSpeed) (hazard.dirY * hazard.baseSpeed)
      let maxT2 :=
        if 0 < hazardVelocity then
          let toPlayerX := player.x - hazard.x
          let toPlayerY := player.y - hazard.y
          let toPlayerDist := hypot toPlayerX toPlayerY
          if 0 < toPlayerDist then
            let dotProduct :=
              (hazard.dirX * toPlayerX + hazard.dirY * toPlayerY) / toPlayerDist
            if 0.5 < dotProduct ∧ currentDistance < 200 then
              max maxT1 (0.7 * dotProduct)
            else maxT1
          else maxT1
        else maxT1
      (maxT2, predT, near))
    ((0 : ℝ), (0 : ℝ), (none : Option (ℝ × Hazard)))
  let nearestThreat := acc.2.2.map (fun p => p.2)
  { immediateDanger := 0.8 < acc.1
    highRisk := 0.5 < acc.1
    predictedDanger := 0.6 < acc.2.1
    dangerLevel := acc.1
    predictedDangerLevel := acc.2.1
    nearestThreat := nearestThreat
    escapeDirections := calculateEscapeDirections g nearestThreat }

/-- `evaluateDirectionSafety`: simulate 8 forward steps of 30 units with
type-aware hazard prediction, multiplying a safety score down; a boundary
hit or a score below 0.1 stops the simulation early. -/
def evaluateDirectionSafety (g : GameState) (direction : ℝ × ℝ) : ℝ :=
  let player := g.player
  let res := (List.range 8).foldl (fun (acc : ℝ × Bool) step0 =>
    if acc.2 then acc
    else
      let step : ℕ := step0 + 1
      let futureX := player.x + direction.1 * 30 * (step : ℝ)
      let futureY := player.y + direction.2 * 30 * (step : ℝ)
      if futureX < 60 ∨ g.width - 60 < futureX ∨
          futureY < 60 ∨ g.height - 60 < futureY then
        (acc.1 * 0.3, true)
      else
        let safety1 := g.hazards.foldl (fun sc hazard =>
          let stepTime := (step : ℝ) * 0.5
          let pred :=
            if hazard.kind = "tracker" then
              let cdx := futureX - hazard.x
              let cdy := futureY - hazard.y
              let distance := hypot cdx cdy
              if 0 < distance then
                (hazard.x + cdx / distance * hazard.baseSpeed * stepTime,
                 hazard.y + cdy / distance * hazard.baseSpeed * stepTime)
              else (hazard.x, hazard.y)
            else
              (hazard.x + hazard.dirX * hazard.baseSpeed * stepTime,
               hazard.y + hazard.dirY * hazard.baseSpeed * stepTime)
          let futureDistance := hypot (pred.1 - futureX) (pred.2 - futureY)
          let baseMinSafeDistance := hazard.r + player.r + 35
          let speedBonus : ℝ := if 2.0 < hazard.baseSpeed then 15 else 0
          let sizeBonus : ℝ :=
            if 0 < hazard.r - 15 then (hazard.r - 15) * 1.2 else 0
          let minSafeDistance := baseMinSafeDistance + speedBonus + sizeBonus
          if futureDistance < minSafeDistance then
            let dangerLevel := (minSafeDistance - futureDistance) / minSafeDistance
            let riskMultiplier :=
              (if hazard.kind = "tracker" then (1.5 : ℝ) else 1.0) *
                (if 2.5 < hazard.baseSpeed then (1.3 : ℝ) else 1)
            let timeWeight := max 0.5 (1.0 - ((step : ℝ) - 1) * 0.1)
            sc * max 0.05 (1 - dangerLevel * riskMultiplier * timeWeight * 0.8)
          else if futureDistance < minSafeDistance * 2.0 then
            sc * max 0.4 (1 - (minSafeDistance * 2.0 - futureDistance) /
              minSafeDistance * 0.3)
          else sc) acc.1
        if safety1 < 0.1 then (safety1, true) else (safety1, false))
    ((1 : ℝ), false)
  max 0.01 res.1

/-! ## Pickup-opportunity analysis -/

def calculateDistanceScore (distance : ℝ) : ℝ :=
  if distance < 50 then 1.0
  else if distance < 100 then 0.9
  else if distance < 200 then 0.7
  else if distance < 300 then 0.4
  else max 0.1 (1 / (1 + distance / 150))

/-- `calculatePickupTypeValue`.  `player.shield` is not a field of the player
record; in JavaScript the read yields `undefined`, so `hasShield` is always
false and the `shield < 50` branch is unreachable. -/
def calculatePickupTypeValue (pickup : Pickup) (currentHealth : ℝ)
    (g : GameState) : ℝ :=
  if pickup.type = "health" then
    if currentHealth ≤ 0.2 then 3.0
    else if currentHealth ≤ 0.4 then 2.5
    else if currentHealth ≤ 0.6 then 1.8
    else if currentHealth ≤ 0.8 then 1.2
    else 0.6
  else if pickup.type = "shield" then
    if currentHealth ≤ 0.5 then 2.2 else 1.8
  else if pickup.type = "speed" then
    let currentSpeed := jsOr g.player.speed 1
    if currentSpeed < 1.2 then 1.5
    else if currentSpeed < 1.5 then 1.2
    else 0.9
  else if pickup.type = "points" then 0.7
  else if pickup.type = "power" then 1.4
  else 1.0

/-- `isPathSafe` from `(sx, sy)` to `(ex, ey)`: 11 interpolation points, each
30 units inside the field and 60 units clear of every hazard. -/
def isPathSafe (g : GameState) (sx sy ex ey : ℝ) : Prop :=
  ∀ i ∈ List.range 11,
    let t := (i : ℝ) / 10
    let checkX := sx + (ex - sx) * t
    let checkY := sy + (ey - sy) * t
    ¬(checkX < 30 ∨ g.width - 30 < checkX ∨
      checkY < 30 ∨ g.height - 30 < checkY) ∧
    ∀ hazard ∈ g.hazards,
      ¬(hypot (checkX - hazard.x) (checkY - hazard.y) <
        hazard.r + g.player.r + 60)

def calculateAlternativePathCount (g : GameState) (pickup : Pickup) : ℕ :=
  let player := g.player
  let dx := pickup.x - player.x
  let dy := pickup.y - player.y
  let distance := hypot dx dy
  if distance = 0 then 0
  else
    let perpX := -(dy / distance)
    let perpY := dx / distance
    (if isPathSafe g (player.x + perpX * 50) (player.y + perpY * 50)
        pickup.x pickup.y then 1 else 0) +
    (if isPathSafe g (player.x - perpX * 50) (player.y - perpY * 50)
        pickup.x pickup.y then 1 else 0)

structure PathSafety where
  safetyScore : ℝ
  criticalThreats : List (Hazard × (ℝ × ℝ) × ℝ × ℝ)
  alternativePaths : ℕ

/-- `evaluateAdvancedPathSafety`: 15-step straight-line path scan against
1s-horizon predicted hazard positions. -/
def evaluateAdvancedPathSafety (g : GameState) (pickup : Pickup) : PathSafety :=
  let player := g.player
  let stepRes := (List.range 15).foldl
    (fun (acc : ℝ × List (Hazard × (ℝ × ℝ) × ℝ × ℝ)) step0 =>
      let progress := ((step0 : ℝ) + 1) / 15
      let checkX := player.x + (pickup.x - player.x) * progress
      let checkY := player.y + (pickup.y - player.y) * progress
      let inner := g.hazards.foldl
        (fun (acc2 : ℝ × List (Hazard × (ℝ × ℝ) × ℝ × ℝ)) hazard =>
          let timeStep := progress * 1.0
          let predictedPos := predictEnemyPositionPhysics hazard g timeStep
          let distance := hypot (checkX - predictedPos.1) (checkY - predictedPos.2)
          let dangerRadius := hazard.r + player.r + 80
          if distance < dangerRadius then
            let dangerIntensity := 1 - distance / dangerRadius
            (max acc2.1 dangerIntensity,
             if 0.7 < dangerIntensity then
               acc2.2 ++ [(hazard, predictedPos, dangerIntensity, timeStep)]
             else acc2.2)
          else acc2) ((0 : ℝ), acc.2)
      (acc.1 * (1 - inner.1 * 0.8), inner.2)) ((1 : ℝ), [])
  { safetyScore := max 0 stepRes.1
    criticalThreats := stepRes.2
    alternativePaths := calculateAlternativePathCount g pickup }

def analyzeThreatTrend (g : GameState) (pickup : Pickup) : ℝ :=
  let acc := g.hazards.foldl (fun (acc : ℝ × ℕ) hazard =>
    let d := hypot (pickup.x - hazard.x) (pickup.y - hazard.y)
    if d < 300 then
      let alignment := (pickup.x - hazard.x) / d * hazard.dirX +
        (pickup.y - hazard.y) / d * hazard.dirY
      (acc.1 + alignment, acc.2 + 1)
    else acc) ((0 : ℝ), (0 : ℕ))
  if 0 < acc.2 then -acc.1 / (acc.2 : ℝ) else 0

def evaluatePickupTiming (g : GameState) (pickup : Pickup)
    (globalThreatLevel : ℝ) : ℝ :=
  if 0.8 < globalThreatLevel then 0.4
  else if 0.6 < globalThreatLevel then 0.7
  else if globalThreatLevel < 0.3 then 1.2
  else
    let player := g.player
    let centerX := g.width / 2
    let centerY := g.height / 2
    if hypot (player.x - centerX) (player.y - centerY) < 150 ∧
        200 < hypot (pickup.x - centerX) (pickup.y - centerY) then 0.6
    else max 0.3 (min 1.5 (1.0 + analyzeThreatTrend g pickup))

def analyzePickupCompetition (g : GameState) (pickup : Pickup) : ℝ :=
  g.hazards.foldl (fun acc hazard =>
    let hazardToPickup := hypot (pickup.x - hazard.x) (pickup.y - hazard.y)
    if hazardToPickup < 200 then
      let alignment := (pickup.x - hazard.x) / hazardToPickup * hazard.dirX +
        (pickup.y - hazard.y) / hazardToPickup * hazard.dirY
      if 0.5 < alignment then acc * 0.7 else acc
    else acc) 1.0

def calculateEscapeRoutesFromPosition (g : GameState) (px py : ℝ) : ℕ :=
  let dirs : List (ℝ × ℝ) :=
    [(1, 0), (-1, 0), (0, 1), (0, -1),
     (0.707, 0.707), (-0.707, 0.707), (0.707, -0.707), (-0.707, -0.707)]
  (dirs.filter fun d => pbool (
    let checkX := px + d.1 * 100
    let checkY := py + d.2 * 100
    ¬(checkX < 50 ∨ g.width - 50 < checkX ∨
      checkY < 50 ∨ g.height - 50 < checkY) ∧
    ∀ hazard ∈ g.hazards,
      ¬(hypot (checkX - hazard.x) (checkY - hazard.y) < hazard.r + 80))).length

/-- `findNearbyPickups`.  The source excludes the centre pickup by object
identity; structural equality stands in for reference equality here. -/
def findNearbyPickups (g : GameState) (centerPickup : Pickup) (radius : ℝ) :
    List Pickup :=
  g.pickups.filter fun pickup => pbool (
    ¬(pickup = centerPickup) ∧
    hypot (pickup.x - centerPickup.x) (pickup.y - centerPickup.y) ≤ radius)

def calculateStrategicValue (g : GameState) (pickup : Pickup)
    (currentHealth : ℝ) : ℝ :=
  let centerX := g.width / 2
  let centerY := g.height / 2
  let maxDistToCenter := hypot (g.width / 2) (g.height / 2)
  let centerFrac := hypot (pickup.x - centerX) (pickup.y - centerY) / maxDistToCenter
  let v1 := 1.0 * (1.2 - centerFrac * 0.4)
  let v2 := v1 * (0.8 + (calculateEscapeRoutesFromPosition g pickup.x pickup.y : ℝ) * 0.1)
  if 0 < (findNearbyPickups g pickup 150).length then v2 * 1.3 else v2

def determinePickupStrategy (pickup : Pickup) (currentHealth : ℝ)
    (pathSafety : PathSafety) (globalThreatLevel : ℝ) : String :=
  if currentHealth ≤ 0.3 ∧ pickup.type = "health" then "emergency_health"
  else if 0.8 < pathSafety.safetyScore ∧ globalThreatLevel < 0.4 then
    "safe_opportunity"
  else if 0 < pathSafety.criticalThreats.length then "risky_dash"
  else if pickup.type = "shield" ∧ 0.6 < currentHealth then
    "defensive_preparation"
  else "calculated_risk"

def shouldPursuePickup (pickup : Option Pickup)
    (score currentHealth globalThreatLevel threatDensity : ℝ) : Prop :=
  match pickup with
  | none => False
  | some p =>
    if currentHealth ≤ 0.33 ∧ (p.type = "health" ∨ p.type = "heart") ∧
        0.2 < score then True
    else if currentHealth ≤ 0.6 ∧ (p.type = "health" ∨ p.type = "heart") ∧
        0.3 < score then True
    else if 0.7 < globalThreatLevel then
      1.0 < score ∧ (p.type = "health" ∨ p.type = "heart" ∨ p.type = "shield")
    else if 0.4 < globalThreatLevel then 0.6 < score
    else if globalThreatLevel < 0.3 then 0.3 < score
    else 0.5 < score

def calculateGlobalThreatLevel (g : GameState) : ℝ :=
  let acc := g.hazards.foldl (fun (acc : ℝ × ℕ) hazard =>
    let distance := hypot (hazard.x - g.player.x) (hazard.y - g.player.y)
    if distance < 200 then (acc.1 + (1 - distance / 200), acc.2 + 1) else acc)
    ((0 : ℝ), (0 : ℕ))
  if 0 < acc.2 then acc.1 / (acc.2 : ℝ) else 0

def calculateThreatDensity (g : GameState) : ℝ :=
  (g.hazards.foldl (fun acc h => acc + Real.pi * h.r ^ 2) 0) /
    (g.width * g.height)

def calculateEstimatedReachTime (g : GameState) (pickup : Option Pickup) : ℝ :=
  match pickup with
  | none => 0
  | some p =>
    hypot (p.x - g.player.x) (p.y - g.player.y) / (jsOr g.player.speed 1 * 60)

def calculatePickupUrgency (pickup : Option Pickup)
    (currentHealth score globalThreatLevel : ℝ) : ℝ :=
  match pickup with
  | none => 0
  | some p =>
    let urgency :=
      if p.type = "health" then
        if currentHealth ≤ 0.2 then 1.0
        else if currentHealth ≤ 0.4 then 0.8
        else if currentHealth ≤ 0.6 then 0.5
        else 0.2
      else min 0.7 (score * 0.8)
    max 0 (min 1 (urgency * (1 - globalThreatLevel * 0.3)))

structure PickupAnalysis where
  shouldPursue : Prop
  bestPickup : Option Pickup
  safePath : Prop
  urgency : ℝ
  estimatedTime : ℝ
  strategyType : String
  riskLevel : ℝ

/-- `analyzePickupOpportunity`: composite scoring of every pickup (distance ×
type value × path safety × timing × competition × strategic value), keeping
the best. -/
def analyzePickupOpportunity (g : GameState) : PickupAnalysis :=
  let player := g.player
  let currentHealth := g.lives / g.maxLives
  let globalThreatLevel := calculateGlobalThreatLevel g
  let threatDensity := calculateThreatDensity g
  let best := g.pickups.foldl
    (fun (acc : ℝ × Option Pickup × String × ℝ) pickup =>
      let distance := hypot (pickup.x - player.x) (pickup.y - player.y)
      let pathSafety := evaluateAdvancedPathSafety g pickup
      let score := calculateDistanceScore distance
        * calculatePickupTypeValue pickup currentHealth g
        * pathSafety.safetyScore
        * evaluatePickupTiming g pickup globalThreatLevel
        * analyzePickupCompetition g pickup
        * calculateStrategicValue g pickup currentHealth
      if acc.1 < score then
        (score, some pickup,
         determinePickupStrategy pickup currentHealth pathSafety
           globalThreatLevel,
         1 - pathSafety.safetyScore)
      else acc)
    ((0 : ℝ), (none : Option Pickup), "none", (0 : ℝ))
  { shouldPursue :=
      shouldPursuePickup best.2.1 best.1 currentHealth globalThreatLevel
        threatDensity
    bestPickup := best.2.1
    safePath := match best.2.1 with
      | some p => 0.6 < (evaluateAdvancedPathSafety g p).safetyScore
      | none => False
    urgency := calculatePickupUrgency best.2.1 currentHealth best.1
      globalThreatLevel
    estimatedTime := calculateEstimatedReachTime g best.2.1
    strategyType := best.2.2.1
    riskLevel := best.2.2.2 }

/-! ## Pickup-pursuit and avoidance actions -/

def calculatePathRisk (g : GameState) (sx sy dirX dirY distance : ℝ) : ℝ :=
  let total := (List.range 10).foldl (fun acc i0 =>
    let stepDist := distance * ((i0 : ℝ) + 1) / 10
    let checkX := sx + dirX * stepDist
    let checkY := sy + dirY * stepDist
    let stepRisk := g.hazards.foldl (fun acc2 hazard =>
      let hazardDist := hypot (checkX - hazard.x) (checkY - hazard.y)
      let riskRadius := hazard.r + 100
      if hazardDist < riskRadius then max acc2 (1 - hazardDist / riskRadius)
      else acc2) 0
    acc + stepRisk) 0
  total / 10

def isPositionSafe (g : GameState) (x y : ℝ) : Prop :=
  ¬(x < 50 ∨ g.width - 50 < x ∨ y < 50 ∨ g.height - 50 < y) ∧
  ∀ hazard ∈ g.hazards,
    ¬(hypot (x - hazard.x) (y - hazard.y) < hazard.r + g.player.r + 70)

/-- `findDetourPath`: the first of four fixed detour angles whose 100-unit
point is safe and at positive distance wins. -/
def findDetourPath (g : GameState) (pickup : Pickup) : Option (ℝ × ℝ) :=
  let player := g.player
  let detourAngles : List ℝ :=
    [Real.pi / 3, -(Real.pi / 3), Real.pi / 2, -(Real.pi / 2)]
  detourAngles.findSome? fun angle =>
    let detourX := player.x + Real.cos angle * 100
    let detourY := player.y + Real.sin angle * 100
    if isPositionSafe g detourX detourY then
      let dirX := detourX - player.x
      let dirY := detourY - player.y
      let distance := hypot dirX dirY
      if 0 < distance then some (dirX / distance, dirY / distance) else none
    else none

def findSaferApproachPosition (g : GameState) (pickup : Pickup) :
    Option (ℝ × ℝ) :=
  let candidates := (List.range 12).filterMap fun k =>
    let angle := (k : ℝ) * (Real.pi / 6)
    let x := pickup.x + Real.cos angle * 120
    let y := pickup.y + Real.sin angle * 120
    if x < 60 ∨ g.width - 60 < x ∨ y < 60 ∨ g.height - 60 < y then none
    else
      let safety := g.hazards.foldl (fun acc hazard =>
        let distance := hypot (x - hazard.x) (y - hazard.y)
        let safeDistance := hazard.r + 80
        if distance < safeDistance then acc * (distance / safeDistance)
        else acc) 1.0
      some (x, y, safety)
  match candidates with
  | [] => none
  | c :: cs =>
    let bestCandidate := cs.foldl
      (fun best candidate => if best.2.2 < candidate.2.2 then candidate else best) c
    if 0.6 < bestCandidate.2.2 then some (bestCandidate.1, bestCandidate.2.1)
    else none

def findSafeCorridor (g : GameState) (sx sy ex ey : ℝ) : Option (ℝ × ℝ) :=
  let corridorWidth : ℝ := 80
  let directX := ex - sx
  let directY := ey - sy
  let directDist := hypot directX directY
  if directDist = 0 then none
  else
    let normalizedX := directX / directDist
    let normalizedY := directY / directDist
    let perpX := -normalizedY
    let perpY := normalizedX
    let hasWideCorridor := ∀ i ∈ List.range 4,
      let checkFrac := ((i : ℝ) + 1) / 5
      let checkX := sx + directX * checkFrac
      let checkY := sy + directY * checkFrac
      ∀ hazard ∈ g.hazards,
        ¬(hypot (checkX + perpX * corridorWidth / 2 - hazard.x)
            (checkY + perpY * corridorWidth / 2 - hazard.y) < hazard.r + 30) ∧
        ¬(hypot (checkX - perpX * corridorWidth / 2 - hazard.x)
            (checkY - perpY * corridorWidth / 2 - hazard.y) < hazard.r + 30)
    if hasWideCorridor then some (normalizedX, normalizedY) else none

def findAlternativePickupPaths (g : GameState) (pickup : Pickup) :
    List (ℝ × ℝ × ℝ) :=
  let player := g.player
  let paths := (List.range 8).filterMap fun k =>
    let angle := (k : ℝ) * (Real.pi / 4)
    let approachX := pickup.x + Real.cos angle * 60
    let approachY := pickup.y + Real.sin angle * 60
    if approachX < 50 ∨ g.width - 50 < approachX ∨
        approachY < 50 ∨ g.height - 50 < approachY then none
    else
      let dirX := approachX - player.x
      let dirY := approachY - player.y
      let distance := hypot dirX dirY
      if 0 < distance then
        some (dirX / distance, dirY / distance,
          1 - calculatePathRisk g player.x player.y (dirX / distance)
            (dirY / distance) distance)
      else none
  sortByDesc (fun p => p.2.2) paths

/-- `getEmergencyPickupAction`.  Each close hazard overwrites the adjusted
direction with a mix of the original direction and its own avoidance vector
(the source reads the unadjusted `dirX`/`dirY` every iteration). -/
def getEmergencyPickupAction (g : GameState) (pickup : Pickup)
    (dirX dirY : ℝ) : ℕ :=
  let player := g.player
  let adjusted := g.hazards.foldl (fun (acc : ℝ × ℝ) hazard =>
    let hazardDistance := hypot (hazard.x - player.x) (hazard.y - player.y)
    if hazardDistance < 120 then
      let avoidX := player.x - hazard.x
      let avoidY := player.y - hazard.y
      let avoidDist := hypot avoidX avoidY
      if 0 < avoidDist then
        (dirX * 0.7 + avoidX / avoidDist * 0.3,
         dirY * 0.7 + avoidY / avoidDist * 0.3)
      else acc
    else acc) (dirX, dirY)
  getActionForDirection adjusted.1 adjusted.2

def getSafePickupAction (g : GameState) (pickup : Pickup) (dirX dirY : ℝ) : ℕ :=
  match findAlternativePickupPaths g pickup with
  | [] => getActionForDirection dirX dirY
  | p :: ps =>
    let bestPath := ps.foldl
      (fun best path => if best.2.2 < path.2.2 then path else best) p
    getActionForDirection bestPath.1 bestPath.2.1

/-- `getRiskyDashAction`.  `threatAnalysis.criticalThreats || []` reads a
field the threat record does not have, so that binding is dead in the source
as well. -/
def getRiskyDashAction (g : GameState) (pickup : Pickup) (dirX dirY : ℝ)
    (threatAnalysis : ThreatAnalysis) : ℕ :=
  let player := g.player
  match findSafeCorridor g player.x player.y pickup.x pickup.y with
  | some corridor => getActionForDirection corridor.1 corridor.2
  | none =>
    let angles : List ℝ :=
      [-(Real.pi / 4), -(Real.pi / 8), 0, Real.pi / 8, Real.pi / 4]
    let best := angles.foldl (fun (acc : ℝ × ℝ × EReal) angle =>
      let testDirX := dirX * Real.cos angle - dirY * Real.sin angle
      let testDirY := dirX * Real.sin angle + dirY * Real.cos angle
      let risk := calculatePathRisk g player.x player.y testDirX testDirY 100
      if (risk : EReal) < acc.2.2 then (testDirX, testDirY, (risk : EReal))
      else acc)
      (dirX, dirY, (⊤ : EReal))
    getActionForDirection best.1 best.2.1

def getDefensivePickupAction (g : GameState) (pickup : Pickup)
    (dirX dirY : ℝ) : ℕ :=
  let player := g.player
  if calculateEscapeRoutesFromPosition g pickup.x pickup.y < 2 then
    match findSaferApproachPosition g pickup with
    | some saferPosition =>
      let toSaferX := saferPosition.1 - player.x
      let toSaferY := saferPosition.2 - player.y
      let saferDist := hypot toSaferX toSaferY
      if 0 < saferDist then
        getActionForDirection (toSaferX / saferDist) (toSaferY / saferDist)
      else getActionForDirection (dirX * 0.8) (dirY * 0.8)
    | none => getActionForDirection (dirX * 0.8) (dirY * 0.8)
  else getActionForDirection (dirX * 0.8) (dirY * 0.8)

def getCalculatedRiskAction (g : GameState) (pickup : Pickup) (dirX dirY : ℝ)
    (threatAnalysis : ThreatAnalysis) : ℕ :=
  if 0.7 < calculatePathRisk g g.player.x g.player.y dirX dirY 80 then
    match findDetourPath g pickup with
    | some detourPath => getActionForDirection detourPath.1 detourPath.2
    | none => 0
  else getActionForDirection dirX dirY

def getSmartPickupAction (g : GameState) (pickupAnalysis : PickupAnalysis)
    (threatAnalysis : ThreatAnalysis) : ℕ :=
  match pickupAnalysis.bestPickup with
  | none => 0
  | some pickup =>
    let player := g.player
    let toPickupX := pickup.x - player.x
    let toPickupY := pickup.y - player.y
    let distance := hypot toPickupX toPickupY
    if distance < 25 then 0
    else
      let normalizedX := toPickupX / distance
      let normalizedY := toPickupY / distance
      if pickupAnalysis.strategyType = "emergency_health" then
        getEmergencyPickupAction g pickup normalizedX normalizedY
      else if pickupAnalysis.strategyType = "safe_opportunity" then
        getSafePickupAction g pickup normalizedX normalizedY
      else if pickupAnalysis.strategyType = "risky_dash" then
        getRiskyDashAction g pickup normalizedX normalizedY threatAnalysis
      else if pickupAnalysis.strategyType = "defensive_preparation" then
        getDefensivePickupAction g pickup normalizedX normalizedY
      else
        getCalculatedRiskAction g pickup normalizedX normalizedY threatAnalysis

/-- `getEmergencyAvoidanceAction`: among the precomputed escape directions
pick the one maximizing the 120-unit-ahead distance to the nearest hazard;
fall back to the direct away-from-threat direction, then to action 1. -/
def getEmergencyAvoidanceAction (g : GameState)
    (threatAnalysis : ThreatAnalysis) : ℕ :=
  if 0 < threatAnalysis.escapeDirections.length then
    (threatAnalysis.escapeDirections.foldl
      (fun (acc : ℕ × EReal) actionId =>
        let d := actionVecs707.getD actionId (0, 0)
        let futureX := g.player.x + d.1 * 120
        let futureY := g.player.y + d.2 * 120
        let minThreatDist : EReal :=
          erealOfMinInf (g.hazards.map fun hazard =>
            hypot (futureX - hazard.x) (futureY - hazard.y))
        if acc.2 < minThreatDist then (actionId, minThreatDist) else acc)
      (threatAnalysis.escapeDirections.headD 0, (0 : EReal))).1
  else
    match threatAnalysis.nearestThreat with
    | some threat =>
      let awayX := g.player.x - threat.x
      let awayY := g.player.y - threat.y
      let distance := hypot awayX awayY
      if 0 < distance then
        getActionForDirection (awayX / distance) (awayY / distance)
      else 1
    | none => 1

def getPredictiveAvoidanceAction (g : GameState)
    (threatAnalysis : ThreatAnalysis) : ℕ :=
  let player := g.player
  let directions : List (ℝ × ℝ) :=
    [(-1, 0), (1, 0), (0, -1), (0, 1),
     (-0.707, -0.707), (0.707, -0.707), (-0.707, 0.707), (0.707, 0.707)]
  let best := directions.foldl (fun (acc : (ℝ × ℝ) × ℝ) d =>
    let futureX := player.x + d.1 * 100
    let futureY := player.y + d.2 * 100
    if futureX < 80 ∨ g.width - 80 < futureX ∨
        futureY < 80 ∨ g.height - 80 < futureY then acc
    else
      let safety := g.hazards.foldl (fun acc2 hazard =>
        let predictedPos := predictEnemyPositionPhysics hazard g 0.7
        let distance := hypot (futureX - predictedPos.1) (futureY - predictedPos.2)
        let safeDistance := hazard.r + player.r + 70
        if distance < safeDistance then acc2 * max 0.1 (distance / safeDistance)
        else acc2) 1.0
      if acc.2 < safety then (d, safety) else acc)
    (((0 : ℝ), (0 : ℝ)), (0 : ℝ))
  getActionForDirection best.1.1 best.1.2

/-- `getIntelligentCenterAction`: force a centre-seeking action beyond 60% of
the maximum centre distance, otherwise the network's best non-hold action. -/
def getIntelligentCenterAction (g : GameState) (policy : List ℝ)
    (threatAnalysis : ThreatAnalysis) : ℕ :=
  let player := g.player
  let centerX := g.width / 2
  let centerY := g.height / 2
  let distanceToCenter := hypot (player.x - centerX) (player.y - centerY)
  let maxDistance := hypot (g.width / 2) (g.height / 2)
  let sortedActions := sortByDesc (fun p : ℕ × ℝ => p.2) policy.enum
  let fallbackAction :=
    match sortedActions.find? (fun p => pbool (p.1 ≠ 0)) with
    | some p => p.1
    | none => (sortedActions.headD (0, 0)).1
  if 0.6 < distanceToCenter / maxDistance ∧ 0 < distanceToCenter then
    getActionForDirection ((centerX - player.x) / distanceToCenter)
      ((centerY - player.y) / distanceToCenter)
  else fallbackAction

/-- `getBestCenterAction`: the safest of the 8 movement actions best aligned
with the centre direction; `bestAction || 1` defaults to "left". -/
def getBestCenterAction (g : GameState) : ℕ :=
  let player := g.player
  let centerX := g.width / 2
  let centerY := g.height / 2
  let toCenterX := centerX - player.x
  let toCenterY := centerY - player.y
  let distance := hypot toCenterX toCenterY
  if distance < 10 then 0
  else
    let dirX := toCenterX / distance
    let dirY := toCenterY / distance
    let best := (List.range' 1 8).foldl (fun (acc : ℕ × EReal) i =>
      let v := actionVecs707.getD i (0, 0)
      let score := v.1 * dirX + v.2 * dirY
      let futureX := player.x + v.1 * 80
      let futureY := player.y + v.2 * 80
      let isSafe := ∀ hazard ∈ g.hazards,
        ¬(hypot (futureX - hazard.x) (futureY - hazard.y) <
          hazard.r + player.r + 60)
      if isSafe ∧ acc.2 < (score : EReal) then (i, (score : EReal)) else acc)
      (0, (⊥ : EReal))
    if best.1 = 0 then 1 else best.1

/-- `applyAdvancedSafetyChecks`: replace an action that would run into the
boundary (centre-seeking substitute) or into a hazard (first escape
direction, when one exists). -/
def applyAdvancedSafetyChecks (g : GameState) (action : ℕ)
    (threatAnalysis : ThreatAnalysis) : ℕ :=
  let player := g.player
  let d := actionVecs707.getD action (0, 0)
  let futureX := player.x + d.1 * 80
  let futureY := player.y + d.2 * 80
  if futureX < 40 ∨ g.width - 40 < futureX ∨
      futureY < 40 ∨ g.height - 40 < futureY then
    getBestCenterAction g
  else if (∃ hazard ∈ g.hazards,
      hypot (futureX - hazard.x) (futureY - hazard.y) <
        hazard.r + player.r + 30) ∧
      0 < threatAnalysis.escapeDirections.length then
    threatAnalysis.escapeDirections.headD 0
  else action

/-- `applyBoundaryAvoidance`: tiered boundary handling by three sequential
`if` blocks (urgent 60 / warning 120 / safe 200 with a 30% random centre
pull).  Only the urgent tier and a firing warning correction return early;
a warning-tier position whose action is benign falls through to the safe
tier, which still applies (its `< 200` test subsumes `< 120`). -/
def applyBoundaryAvoidance (g : GameState) (action : ℕ) (rand : ℝ) : ℕ :=
  let player := g.player
  let width := g.width
  let height := g.height
  let centerX := width / 2
  let centerY := height / 2
  let minBoundaryDist :=
    min (min (min player.x (width - player.x)) player.y) (height - player.y)
  let distToCenter := hypot (centerX - player.x) (centerY - player.y)
  let cur := actionMapInt.getD action (0, 0)
  let futureX := player.x + cur.1 * 60
  let futureY := player.y + cur.2 * 60
  let futureBoundaryDist :=
    min (min (min futureX (width - futureX)) futureY) (height - futureY)
  if minBoundaryDist < 60 then getBestCenterAction g
  else if minBoundaryDist < 120 ∧
      (futureBoundaryDist < minBoundaryDist ∨
        distToCenter < hypot (futureX - centerX) (futureY - centerY)) then
    getBestCenterAction g
  else if minBoundaryDist < 200 ∧ width * 0.25 < distToCenter then
    if rand < 0.3 then getBestCenterAction g else action
  else action

/-! ## Anti-oscillation memory and centre tracking -/

def updatePositionMemory (s : AdvancedDodgerAI) (x y time : ℝ) :
    AdvancedDodgerAI :=
  let rp0 := s.recentPositions ++ [⟨x, y, time⟩]
  let rp1 := rp0.filter fun pos => pbool (time - 3000 < pos.time)
  let rp2 :=
    if s.maxMemorySize < rp1.length then rp1.drop (rp1.length - s.maxMemorySize)
    else rp1
  { s with recentPositions := rp2 }

/-- `isOscillatingMovement`: at least two back-and-forth patterns among the
last 6 remembered positions.  The source ignores its `actionVec` and
`currentTime` arguments. -/
def isOscillatingMovement (s : AdvancedDodgerAI) (actionVec : ℝ × ℝ)
    (currentTime : ℝ) : Prop :=
  if s.recentPositions.length < 4 then False
  else
    let r := s.recentPositions.drop (s.recentPositions.length - 6)
    let oscillationCount := (List.range (r.length - 2)).foldl (fun c k =>
      let i := k + 1
      let prev := r.getD (i - 1) default
      let curr := r.getD i default
      let next := r.getD (i + 1) default
      let dist1 := hypot (curr.x - prev.x) (curr.y - prev.y)
      let dist2 := hypot (next.x - curr.x) (next.y - curr.y)
      let totalDist := hypot (next.x - prev.x) (next.y - prev.y)
      if 30 < dist1 ∧ 30 < dist2 ∧ totalDist < 15 then c + 1 else c) 0
    2 ≤ oscillationCount

def findAlternativeActions (g : GameState) (originalAction : ℕ) : List ℕ :=
  let alternatives := ((List.range' 1 8).filter fun a =>
    pbool (¬(a = originalAction))).map fun a =>
      (a, evaluateDirectionSafety g (actionMapInt.getD a (0, 0)))
  ((sortByDesc (fun p : ℕ × ℝ => p.2) alternatives).take 3).map fun p => p.1

def updateBorderAvoidanceMemory (s : AdvancedDodgerAI) (actionVec : ℝ × ℝ)
    (time : ℝ) : AdvancedDodgerAI :=
  let bm0 := s.borderAvoidanceMemory ++ [⟨actionVec, 0.5, time⟩]
  let bm1 := bm0.filter fun mem => pbool (time - 5000 < mem.time)
  let bm2 :=
    if s.maxMemorySize < bm1.length then bm1.drop (bm1.length - s.maxMemorySize)
    else bm1
  { s with borderAvoidanceMemory := bm2 }

/-- `applyAntiOscillationMemory`: near a boundary, a detected oscillation is
broken by the safest alternative action; otherwise the border-avoidance
memory is stamped and the action passes through. -/
def applyAntiOscillationMemory (s : AdvancedDodgerAI) (g : GameState)
    (action : ℕ) (currentTime : ℝ) : ℕ × AdvancedDodgerAI :=
  let player := g.player
  let s1 := updatePositionMemory s player.x player.y currentTime
  let nearBoundary := player.x < 150 ∨ g.width - 150 < player.x ∨
    player.y < 150 ∨ g.height - 150 < player.y
  if ¬nearBoundary then (action, s1)
  else
    let currentActionVec := actionMapInt.getD action (0, 0)
    if isOscillatingMovement s1 currentActionVec currentTime then
      match findAlternativeActions g action with
      | [] => (action, updateBorderAvoidanceMemory s1 currentActionVec currentTime)
      | a :: _ => (a, s1)
    else (action, updateBorderAvoidanceMemory s1 currentActionVec currentTime)

def updateCenterTracking (s : AdvancedDodgerAI) (g : GameState) (action : ℕ)
    (currentTime : ℝ) : AdvancedDodgerAI :=
  let player := g.player
  let centerX := g.width / 2
  let centerY := g.height / 2
  let distanceToCenter := hypot (player.x - centerX) (player.y - centerY)
  let maxDistance := hypot (g.width / 2) (g.height / 2)
  let distanceFrac := distanceToCenter / maxDistance
  let ct1 := { s.centerTracker with lastCenterDistance := distanceFrac }
  let ct2 :=
    if 0.5 < distanceFrac then
      { ct1 with timeAwayFromCenter := ct1.timeAwayFromCenter + 1 }
    else { ct1 with totalCenterTime := ct1.totalCenterTime + 1 }
  let ct3 :=
    if currentTime - ct2.lastForceTime < 1000 then
      let v := actionVecs707.getD action (0, 0)
      let toCenterX := centerX - player.x
      let toCenterY := centerY - player.y
      let len := hypot toCenterX toCenterY
      let n := if 0 < len then (toCenterX / len, toCenterY / len)
        else (toCenterX, toCenterY)
      if 0.3 < v.1 * n.1 + v.2 * n.2 then
        { ct2 with forceBackToCenterCount := ct2.forceBackToCenterCount + 1 }
      else ct2
    else ct2
  { s with centerTracker := ct3 }

/-! ## Speed model -/

def calculatePickupSafety (g : GameState) (pickup : Pickup) : ℝ :=
  max 0.1 (g.hazards.foldl (fun acc hazard =>
    let distanceToPickup := hypot (hazard.x - pickup.x) (hazard.y - pickup.y)
    let threatRadius := hazard.r + 30
    if distanceToPickup < threatRadius then acc * 0.3
    else if distanceToPickup < threatRadius * 2 then acc * 0.7
    else acc) 1.0)

def findNearestSafePickup (g : GameState) : Option Pickup :=
  (g.pickups.foldl (fun (acc : Option (Pickup × ℝ)) pickup =>
    let distance := hypot (pickup.x - g.player.x) (pickup.y - g.player.y)
    let safety := calculatePickupSafety g pickup
    if 0.4 < safety ∧
        (match acc with | none => True | some pm => distance < pm.2) then
      some (pickup, distance)
    else acc) none).map fun pm => pm.1

/-- `isSafeToStay`: nearest hazard beyond 180 units, nearest boundary beyond
120 units, health above the low-health threshold. -/
def isSafeToStay (g : GameState) : Prop :=
  let player := g.player
  let nearestThreat := listMinInf (g.hazards.map fun hazard =>
    hypot (hazard.x - player.x) (hazard.y - player.y))
  let boundaryDistance :=
    min (min (min player.x (g.width - player.x)) player.y) (g.height - player.y)
  let currentHealth := g.lives / g.maxLives
  (match nearestThreat with | none => True | some d => 180 < d) ∧
    120 < boundaryDistance ∧ ¬(currentHealth ≤ 0.6)

/-- `calculateUltraFastSpeed`: health-tiered base speed plus threat,
boundary and pickup increments; zeroed on a safe hold, floored at 1.8 on an
unsafe hold, and finally clamped into `[1.0, 5.0]`. -/
def calculateUltraFastSpeed (g : GameState) (features : List ℝ) (action : ℕ)
    (isLowHealth isCriticalHealth : Prop) : ℝ :=
  let base0 : ℝ := if isCriticalHealth then 3.2 else if isLowHealth then 2.6 else 2.0
  let sacc := g.hazards.foldl (fun (acc : ℝ × ℝ × ℝ × Prop) hazard =>
    let distance := hypot (hazard.x - g.player.x) (hazard.y - g.player.y)
    let immediateDanger := acc.2.2.2 ∨ distance < hazard.r + g.player.r + 40
    if distance < 250 then
      let threatLevel := Real.exp (-distance / 70)
      (max acc.1 threatLevel,
       (if distance < 120 then acc.2.1 + 1 else acc.2.1),
       (if hazard.kind = "tracker" ∧ distance < 200 then acc.2.2.1 + 1
        else acc.2.2.1),
       immediateDanger)
    else (acc.1, acc.2.1, acc.2.2.1, immediateDanger))
    ((0 : ℝ), (0 : ℝ), (0 : ℝ), False)
  let base1 := base0 + (if sacc.2.2.2 then (2.0 : ℝ) else 0)
  let base2 := base1 + sacc.1 * 1.8 + sacc.2.1 * 0.6 + sacc.2.2.1 * 1.5
  let player := g.player
  let boundaryDistance :=
    min (min (min player.x (g.width - player.x)) player.y) (g.height - player.y)
  let base3 :=
    if boundaryDistance < 100 then base2 + (100 - boundaryDistance) / 100 * 1.5
    else base2
  let base4 :=
    if isLowHealth ∧ 0 < g.pickups.length then
      match findNearestSafePickup g with
      | some _ => base3 + (if isCriticalHealth then (0.8 : ℝ) else 0.5)
      | none => base3
    else base3
  let base5 := if ¬(action = 0) then base4 + 0.3 else base4
  let base6 :=
    if action = 0 then
      if isSafeToStay g then 0 else max 1.8 base5
    else base5
  max 1.0 (min 5.0 base6)

/-! ## Heuristic-bias system (`getUltraResponseBias` and its analyses) -/

/-- `isForceTowardBoundary`: whether moving along `direction` toward the
boundary is justified (already cornered under multiple close threats, or no
safe non-boundary alternative). -/
def isForceTowardBoundary (g : GameState) (direction : ℝ × ℝ) : Prop :=
  let player := g.player
  let width := g.width
  let height := g.height
  let futureX := player.x + direction.1 * 100
  let futureY := player.y + direction.2 * 100
  let isTowardBoundary := futureX < 100 ∨ width - 100 < futureX ∨
    futureY < 100 ∨ height - 100 < futureY
  if ¬isTowardBoundary then False
  else
    let currentNearBoundary := player.x < 120 ∨ width - 120 < player.x ∨
      player.y < 120 ∨ height - 120 < player.y
    if currentNearBoundary then
      let acc := g.hazards.foldl (fun (acc : ℕ × ℝ) hazard =>
        let distance := hypot (hazard.x - player.x) (hazard.y - player.y)
        let criticalDistance := hazard.r + player.r + 40
        if distance < criticalDistance then
          (acc.1 + 1, acc.2 + (criticalDistance - distance) / criticalDistance)
        else acc) ((0 : ℕ), (0 : ℝ))
      2 ≤ acc.1 ∧ 1.5 < acc.2
    else
      let altDirs : List (ℝ × ℝ) :=
        [(-1, 0), (1, 0), (0, -1), (0, 1),
         (-0.707, -0.707), (0.707, -0.707), (-0.707, 0.707), (0.707, 0.707)]
      let counts := altDirs.foldl (fun (acc : ℕ × ℕ) altDir =>
        if |altDir.1 - direction.1| < 0.1 ∧ |altDir.2 - direction.2| < 0.1 then
          acc
        else
          let altFutureX := player.x + altDir.1 * 100
          let altFutureY := player.y + altDir.2 * 100
          if altFutureX < 100 ∨ width - 100 < altFutureX ∨
              altFutureY < 100 ∨ height - 100 < altFutureY then acc
          else
            let dangerLevel := g.hazards.foldl (fun dl hazard =>
              let checkX := player.x + altDir.1 * 80
              let checkY := player.y + altDir.2 * 80
              let distanceToCheck := hypot (hazard.x - checkX) (hazard.y - checkY)
              let safeDistance := hazard.r + player.r + 50
              if distanceToCheck < safeDistance then
                dl + (safeDistance - distanceToCheck) / safeDistance
              else dl) 0
            if dangerLevel = 0 then (acc.1 + 1, acc.2)
            else if dangerLevel < 0.5 then (acc.1, acc.2 + 1)
            else acc) ((0 : ℕ), (0 : ℕ))
      counts.1 = 0 ∧ counts.2 ≤ 1

structure BoundaryPressure where
  x : ℝ
  y : ℝ
  intensity : ℝ
  centerAttraction : ℝ × ℝ × ℝ

/-- `calculateBoundaryPressureEnhanced`: nonlinear edge pressure inside a
200-unit comfort zone plus a centre attraction beyond `0.3·min(w,h)`,
forced to at least 0.8 within 150 units of an edge. -/
def calculateBoundaryPressureEnhanced (g : GameState) (centerBias : ℝ) :
    BoundaryPressure :=
  let player := g.player
  let width := g.width
  let height := g.height
  let comfortZone : ℝ := 200
  let safeMargin : ℝ := 150
  let leftDist := player.x
  let rightDist := width - player.x
  let topDist := player.y
  let bottomDist := height - player.y
  let minEdgeDistance := min (min (min leftDist rightDist) topDist) bottomDist
  let ix : ℝ :=
    if leftDist < comfortZone then
      ((comfortZone - leftDist) / comfortZone) ^ (1.5 : ℝ)
    else if rightDist < comfortZone then
      ((comfortZone - rightDist) / comfortZone) ^ (1.5 : ℝ)
    else 0
  let px : ℝ :=
    if leftDist < comfortZone then ix * (1 + centerBias * 0.5)
    else if rightDist < comfortZone then -(ix * (1 + centerBias * 0.5))
    else 0
  let iy : ℝ :=
    if topDist < comfortZone then
      ((comfortZone - topDist) / comfortZone) ^ (1.5 : ℝ)
    else if bottomDist < comfortZone then
      ((comfortZone - bottomDist) / comfortZone) ^ (1.5 : ℝ)
    else 0
  let py : ℝ :=
    if topDist < comfortZone then iy * (1 + centerBias * 0.5)
    else if bottomDist < comfortZone then -(iy * (1 + centerBias * 0.5))
    else 0
  let centerX := width / 2
  let centerY := height / 2
  let distanceToCenter := hypot (player.x - centerX) (player.y - centerY)
  let maxRadius := min width height * 0.3
  let s0 : ℝ :=
    if maxRadius < distanceToCenter then
      (min 1.0 ((distanceToCenter - maxRadius) / maxRadius)) ^ (1.2 : ℝ)
    else 0
  let c0 : ℝ × ℝ :=
    if maxRadius < distanceToCenter ∧ 0 < distanceToCenter then
      ((centerX - player.x) / distanceToCenter,
       (centerY - player.y) / distanceToCenter)
    else (0, 0)
  let s1 := if minEdgeDistance < safeMargin then max s0 0.8 else s0
  let c1 :=
    if minEdgeDistance < safeMargin ∧ 0 < distanceToCenter then
      ((centerX - player.x) / distanceToCenter,
       (centerY - player.y) / distanceToCenter)
    else c0
  { x := px, y := py, intensity := max ix iy,
    centerAttraction := (c1.1, c1.2, s1) }

/-- `calculateEscapeRoutes`: direct and lateral escape directions (plus a
boundary-escape direction under pressure), each scored by
`evaluateDirectionSafety` and penalized when it heads into the boundary
without being forced, sorted safest-first. -/
def calculateEscapeRoutes (g : GameState) (threatX threatY : ℝ)
    (boundaryPressure : BoundaryPressure) : List ((ℝ × ℝ) × ℝ) :=
  let base : List (ℝ × ℝ) :=
    [(-threatX, -threatY), (-threatY, threatX), (threatY, -threatX)]
  let dirs :=
    if 0.3 < boundaryPressure.intensity then
      base ++ [(boundaryPressure.x, boundaryPressure.y)]
    else base
  let routes := dirs.map fun dir =>
    let safety0 := evaluateDirectionSafety g dir
    -- `const isTowardBoundary = !isForceTowardBoundary(...); if (!isTowardBoundary)`
    let safety :=
      if isForceTowardBoundary g dir then
        let futureX := g.player.x + dir.1 * 80
        let futureY := g.player.y + dir.2 * 80
        if futureX < 100 ∨ g.width - 100 < futureX ∨
            futureY < 100 ∨ g.height - 100 < futureY then safety0 * 0.2
        else safety0
      else safety0
    (dir, safety)
  sortByDesc (fun r => r.2) routes

structure SmartAvoidance where
  mainThreatX : ℝ
  mainThreatY : ℝ
  escapeRoutes : List ((ℝ × ℝ) × ℝ)
  urgency : ℝ
  boundaryPressure : BoundaryPressure

/-- `calculateSmartAvoidance`: size/speed/type-weighted aggregate threat
direction, urgency, and escape routes. -/
def calculateSmartAvoidance (g : GameState) : SmartAvoidance :=
  let player := g.player
  let acc := g.hazards.foldl (fun (acc : ℝ × ℝ × ℝ × ℝ) hazard =>
    let distance := hypot (hazard.x - player.x) (hazard.y - player.y)
    if 0 < distance ∧ distance < 300 then
      let futureX := hazard.x + hazard.dirX * hazard.baseSpeed * 3
      let futureY := hazard.y + hazard.dirY * hazard.baseSpeed * 3
      let futureDistance := hypot (futureX - player.x) (futureY - player.y)
      let effectiveRadius := hazard.r + player.r + 40
      let threatDistance := min distance futureDistance
      let weight0 := Real.exp (-threatDistance / (60 + hazard.r * 0.5))
      let weight1 := weight0 * max 0.5 (1 + (hazard.r - 15) / 30)
      let weight2 := if hazard.kind = "tracker" then weight1 * 2.5 else weight1
      let weight := if 2.0 < hazard.baseSpeed then weight2 * 1.5 else weight2
      let minSafeDistance := effectiveRadius + 20
      let urgency := max 0 ((minSafeDistance - threatDistance) / minSafeDistance)
      (acc.1 + (hazard.x - player.x) / distance * weight,
       acc.2.1 + (hazard.y - player.y) / distance * weight,
       max acc.2.2.1 urgency,
       acc.2.2.2 + weight)
    else acc) ((0 : ℝ), (0 : ℝ), (0 : ℝ), (0 : ℝ))
  let mainThreatX := if 0 < acc.2.2.2 then acc.1 / acc.2.2.2 else acc.1
  let mainThreatY := if 0 < acc.2.2.2 then acc.2.1 / acc.2.2.2 else acc.2.1
  let boundaryPressure := calculateBoundaryPressureEnhanced g 1.0
  { mainThreatX := mainThreatX
    mainThreatY := mainThreatY
    escapeRoutes := calculateEscapeRoutes g mainThreatX mainThreatY
      boundaryPressure
    urgency := acc.2.2.1
    boundaryPressure := boundaryPressure }

def calculateAvoidanceScore (actionVec : ℝ × ℝ)
    (avoidanceAnalysis : SmartAvoidance) : ℝ :=
  avoidanceAnalysis.escapeRoutes.foldl (fun maxScore route =>
    let alignment := actionVec.1 * route.1.1 + actionVec.2 * route.1.2
    if 0 < alignment then
      max maxScore (alignment * route.2 * avoidanceAnalysis.urgency)
    else maxScore) 0

/-- `calculatePickupSafetyEnhanced`: pickup-surroundings and path threat
scan with relaxed thresholds for heart pickups. -/
def calculatePickupSafetyEnhanced (g : GameState) (pickup : Pickup) : ℝ :=
  let player := g.player
  let isHeartPickup := pickup.type = "heart"
  let safetyMultiplier : ℝ := if isHeartPickup then 0.75 else 1.0
  let s1 := g.hazards.foldl (fun acc hazard =>
    let distance := hypot (hazard.x - pickup.x) (hazard.y - pickup.y)
    let threatRadius :=
      (hazard.r + (if isHeartPickup then (60 : ℝ) else 70)) * safetyMultiplier
    if distance < threatRadius then
      let timeToReach := distance / max hazard.baseSpeed 0.1
      let playerTimeToReach :=
        hypot (player.x - pickup.x) (player.y - pickup.y) / 3.0
      let timeThreshold : ℝ := if isHeartPickup then 1.2 else 1.5
      if timeToReach < playerTimeToReach * timeThreshold then
        acc * (1 - (1 - distance / threatRadius) *
          (if isHeartPickup then (0.7 : ℝ) else 0.9))
      else acc
    else acc) 1.0
  let dx := (pickup.x - player.x) / 8
  let dy := (pickup.y - player.y) / 8
  let s2 := (List.range 8).foldl (fun acc step0 =>
    let step := (step0 : ℝ) + 1
    let checkX := player.x + dx * step
    let checkY := player.y + dy * step
    g.hazards.foldl (fun acc2 hazard =>
      let fx := hazard.x + hazard.dirX * hazard.baseSpeed * step * 0.3
      let fy := hazard.y + hazard.dirY * hazard.baseSpeed * step * 0.3
      let distance := hypot (fx - checkX) (fy - checkY)
      let minSafeDistance := (hazard.r + player.r + 40) *
        (if isHeartPickup then (0.8 : ℝ) else 1.0)
      if distance < minSafeDistance then
        acc2 * (if isHeartPickup then (0.6 : ℝ) else 0.4)
      else if distance < minSafeDistance * 1.8 then
        acc2 * (if isHeartPickup then (0.85 : ℝ) else 0.7)
      else acc2) acc) s1
  max (if isHeartPickup then (0.08 : ℝ) else 0.05) s2

structure PickupStrategy where
  shouldSeek : Prop
  directionX : ℝ
  directionY : ℝ
  urgency : ℝ

/-- `calculatePickupStrategy`: pick the best-scoring sufficiently-safe
pickup (hearts heavily boosted, thresholds relaxed at low health) and decide
whether to actively seek it. -/
def calculatePickupStrategy (g : GameState)
    (isLowHealth isCriticalHealth : Prop) : PickupStrategy :=
  let player := g.player
  if g.pickups.length = 0 then ⟨False, 0, 0, 0⟩
  else
    let best := g.pickups.foldl (fun (acc : ℝ × Option Pickup) pickup =>
      let distance := hypot (pickup.x - player.x) (pickup.y - player.y)
      let safety := calculatePickupSafetyEnhanced g pickup
      let urgency := (pickup.maxLife - pickup.life) / pickup.maxLife
      let score0 := safety / (1 + distance / 180) + urgency * 1.5
      let score :=
        if pickup.type = "heart" then
          let sc1 := score0 * (if isCriticalHealth then (8.0 : ℝ)
            else if isLowHealth then 6.0 else 3.0)
          let sc2 := sc1 + max 0 ((200 - distance) / 200) * 2.0
          if 0.7 < urgency then sc2 * 2.5 else sc2
        else
          score0 * (if isCriticalHealth then (3.0 : ℝ)
            else if isLowHealth then 2.5 else 1.2)
      let minSafetyThreshold : ℝ :=
        if pickup.type = "heart" then
          if isCriticalHealth then 0.08 else if isLowHealth then 0.15 else 0.25
        else
          if isCriticalHealth then 0.15 else if isLowHealth then 0.25 else 0.35
      if minSafetyThreshold < safety ∧ acc.1 < score then (score, some pickup)
      else acc) ((-1 : ℝ), (none : Option Pickup))
    match best.2 with
    | none => ⟨False, 0, 0, 0⟩
    | some bestPickup =>
      let distance := hypot (bestPickup.x - player.x) (bestPickup.y - player.y)
      let seekThreshold : ℝ :=
        if bestPickup.type = "heart" then
          if isCriticalHealth then 0.2 else if isLowHealth then 0.3 else 0.5
        else
          if isCriticalHealth then 0.4 else if isLowHealth then 0.6 else 1.0
      if seekThreshold < best.1 ∧ 0 < distance then
        ⟨True, (bestPickup.x - player.x) / distance,
         (bestPickup.y - player.y) / distance, min 4.0 best.1⟩
      else ⟨False, 0, 0, 0⟩

/-- `getUltraResponseBias`: the 9-entry heuristic bias vector (one score per
action).  The source's unused locals (`toCenterX`, `toCenterY`,
`edgeDistance`) are omitted. -/
def getUltraResponseBias (g : GameState) (isLowHealth isCriticalHealth : Prop) :
    List ℝ :=
  let player := g.player
  let width := g.width
  let height := g.height
  let avoidanceAnalysis := calculateSmartAvoidance g
  let pickupAnalysis := calculatePickupStrategy g isLowHealth isCriticalHealth
  let centerX := width / 2
  let centerY := height / 2
  let distanceToCenter := hypot (player.x - centerX) (player.y - centerY)
  let maxDistanceToCenter := hypot (width / 2) (height / 2)
  let centerBias := min 1.0 (distanceToCenter / (maxDistanceToCenter * 0.6))
  let boundaryPressure := calculateBoundaryPressureEnhanced g centerBias
  (List.range 9).map fun a =>
    let v := actionVecs707.getD a (0, 0)
    let b1 := calculateAvoidanceScore v avoidanceAnalysis * 5.0
    -- `const isTowardBoundary = !isForceTowardBoundary(...); if (!isTowardBoundary)`
    let b2 :=
      if isForceTowardBoundary g v then
        let futureX := player.x + v.1 * 80
        let futureY := player.y + v.2 * 80
        if futureX < 150 ∨ width - 150 < futureX ∨
            futureY < 150 ∨ height - 150 < futureY then b1 - 5.0
        else b1
      else b1
    let b3 :=
      if 0.1 < boundaryPressure.centerAttraction.2.2 then
        let centerAlignment := v.1 * boundaryPressure.centerAttraction.1 +
          v.2 * boundaryPressure.centerAttraction.2.1
        if 0 < centerAlignment then
          b2 + centerAlignment * boundaryPressure.centerAttraction.2.2 * 4.0
        else b2
      else b2
    let b4 :=
      if 0.2 < boundaryPressure.intensity then
        b3 + (v.1 * boundaryPressure.x + v.2 * boundaryPressure.y) *
          boundaryPressure.intensity * 3.5
      else b3
    let futureX := player.x + v.1 * 60
    let futureY := player.y + v.2 * 60
    let futureDistanceToCenter := hypot (futureX - centerX) (futureY - centerY)
    let b5 :=
      if futureDistanceToCenter < distanceToCenter then
        b4 + (distanceToCenter - futureDistanceToCenter) /
          max 1 distanceToCenter * 2.0
      else b4
    let b6 :=
      if pickupAnalysis.shouldSeek then
        let pickupAlignment := v.1 * pickupAnalysis.directionX +
          v.2 * pickupAnalysis.directionY
        let pb0 := pickupAlignment * pickupAnalysis.urgency * 3.5
        let pb := if isCriticalHealth then pb0 * 2.0
          else if isLowHealth then pb0 * 1.5 else pb0
        b5 + pb
      else b5
    let b7 := if ¬(a = 0) then b6 + 1.5 else b6
    if a = 0 then (if isSafeToStay g then b7 + 0 else b7 - 6.0) else b7

/-! ## The decision composer -/

structure Decision where
  mvx : ℝ
  mvy : ℝ
  action : ℕ
  speed : ℝ
  hBias : List ℝ
  hStrength : ℝ

/-- `AdvancedDodgerAI.decide`: the full priority cascade.  `rand i` is the
`i`-th `Math.random()` draw of the call (0: exploration gate, 1: exploration
action, 2: boundary-avoidance centre pull); `rngL` feeds any layer
reinitialization inside `forward`; `now` is `Date.now()`. -/
def decide (s : AdvancedDodgerAI) (gameState : GameState) (difficulty : ℝ)
    (training : Bool) (now : ℝ) (rand : ℕ → ℝ) (rngL : ℕ → RngL) :
    Decision × AdvancedDodgerAI :=
  let features := extractFeatures gameState difficulty
  let s0 := { s with lastFeatures := features }
  let fw := s0.forward features now rngL
  let policy := fw.1.2
  let s1 := fw.2
  let threatAnalysis := analyzeRealTimeThreat gameState
  let pickupAnalysis := analyzePickupOpportunity gameState
  let currentHealth := gameState.lives / gameState.maxLives
  let isLowHealth := currentHealth ≤ 0.6
  let isCriticalHealth := currentHealth ≤ 0.3
  let action0 : ℕ :=
    if threatAnalysis.immediateDanger then
      getEmergencyAvoidanceAction gameState threatAnalysis
    else if threatAnalysis.highRisk then
      getPredictiveAvoidanceAction gameState threatAnalysis
    else if pickupAnalysis.bestPickup.isSome ∧
        (0.5 < pickupAnalysis.urgency ∨
         (currentHealth ≤ 0.6 ∧ 0.3 < pickupAnalysis.urgency) ∨
         (currentHealth ≤ 0.3 ∧ 0.1 < pickupAnalysis.urgency)) then
      getSmartPickupAction gameState pickupAnalysis threatAnalysis
    else
      let a1 := getIntelligentCenterAction gameState policy threatAnalysis
      let a2 :=
        if threatAnalysis.predictedDanger then
          match sortByDesc (fun p : ℕ × ℝ => p.2)
            (policy.enum.filter fun p => pbool (¬(p.1 = 0))) with
          | [] => a1
          | m :: _ => m.1
        else a1
      if training = true ∧ rand 0 < s.explorationRate then
        (⌊rand 1 * 8⌋ + 1).toNat
      else a2
  let action1 := applyAdvancedSafetyChecks gameState action0 threatAnalysis
  let s2 := updateCenterTracking s1 gameState action1 now
  let action2 := applyBoundaryAvoidance gameState action1 (rand 2)
  let r3 := applyAntiOscillationMemory s2 gameState action2 now
  let s3 := { r3.2 with lastAction := r3.1 }
  let movement := actionMapInt.getD r3.1 (0, 0)
  ({ mvx := movement.1
     mvy := movement.2
     action := r3.1
     speed := calculateUltraFastSpeed gameState features r3.1 isLowHealth
       isCriticalHealth
     hBias := getUltraResponseBias gameState isLowHealth isCriticalHealth
     hStrength := 0.5 }, s3)

/-! ## Weight snapshot export / import -/

/-- `ensureWeightsInitialized`: any layer whose weight-matrix row count
disagrees with the declared architecture is rebuilt from scratch. -/
def ensureWeightsInitialized (s : AdvancedDodgerAI) (rng : ℕ → RngL)
    (now : ℝ) : AdvancedDodgerAI :=
  let s := if ¬(s.inputLayer.weights.length = 1024) then
    { s with inputLayer := NeuralLayer.create 200 1024 (rng 0) now } else s
  let s := if ¬(s.hiddenLayer1.weights.length = 1536) then
    { s with hiddenLayer1 := NeuralLayer.create 1024 1536 (rng 1) now } else s
  let s := if ¬(s.hiddenLayer2.weights.length = 1024) then
    { s with hiddenLayer2 := NeuralLayer.create 1536 1024 (rng 2) now } else s
  let s := if ¬(s.hiddenLayer3.weights.length = 768) then
    { s with hiddenLayer3 := NeuralLayer.create 1024 768 (rng 3) now } else s
  let s := if ¬(s.valueHead.weights.length = 1) then
    { s with valueHead := NeuralLayer.create 768 1 (rng 4) now } else s
  if ¬(s.policyHead.weights.length = ACTION_COUNT) then
    { s with policyHead := NeuralLayer.create 768 ACTION_COUNT (rng 5) now }
  else s

/-- `loadWeights`: layer data present in the document replaces the in-memory
layer parameters; metadata is restored with `|| default` fallbacks
(`episodes || 0`, `averagePerformance || 0`, `explorationRate || 0.1` —
`bestPerformance` is not read); then shapes are revalidated. -/
def loadWeights (s : AdvancedDodgerAI) (data : NetworkData) (rng : ℕ → RngL)
    (now : ℝ) : AdvancedDodgerAI :=
  let s := match data.inputLayer with
    | some ld => { s with inputLayer :=
        { s.inputLayer with weights := ld.weights, biases := ld.biases } }
    | none => s
  let s := match data.hiddenLayer1 with
    | some ld => { s with hiddenLayer1 :=
        { s.hiddenLayer1 with weights := ld.weights, biases := ld.biases } }
    | none => s
  let s := match data.hiddenLayer2 with
    | some ld => { s with hiddenLayer2 :=
        { s.hiddenLayer2 with weights := ld.weights, biases := ld.biases } }
    | none => s
  let s := match data.hiddenLayer3 with
    | some ld => { s with hiddenLayer3 :=
        { s.hiddenLayer3 with weights := ld.weights, biases := ld.biases } }
    | none => s
  let s := match data.valueHead with
    | some ld => { s with valueHead :=
        { s.valueHead with weights := ld.weights, biases := ld.biases } }
    | none => s
  let s := match data.policyHead with
    | some ld => { s with policyHead :=
        { s.policyHead with weights := ld.weights, biases := ld.biases } }
    | none => s
  let s := match data.metadata with
    | some md => { s with
        episodeCount := jsOr md.episodes 0
        averagePerformance := jsOr md.averagePerformance 0
        explorationRate := jsOr md.explorationRate 0.1 }
    | none => s
  ensureWeightsInitialized s rng now

/-- `exportWeights`: the structured content of the exported JSON document
(the `JSON.stringify`/`JSON.parse` pair is lossless and modelled as the
identity on this structure). -/
def exportWeights (s : AdvancedDodgerAI) : NetworkData :=
  { inputLayer := some ⟨s.inputLayer.weights, s.inputLayer.biases⟩
    hiddenLayer1 := some ⟨s.hiddenLayer1.weights, s.hiddenLayer1.biases⟩
    hiddenLayer2 := some ⟨s.hiddenLayer2.weights, s.hiddenLayer2.biases⟩
    hiddenLayer3 := some ⟨s.hiddenLayer3.weights, s.hiddenLayer3.biases⟩
    valueHead := some ⟨s.valueHead.weights, s.valueHead.biases⟩
    policyHead := some ⟨s.policyHead.weights, s.policyHead.biases⟩
    metadata := some
      { episodes := s.episodeCount
        averagePerformance := s.averagePerformance
        bestPerformance := some s.bestPerformance
        explorationRate := s.explorationRate
        version := some "2.0" } }

/-- `importWeights`: requires present, truthy `metadata.version`, then loads;
returns whether the import was accepted. -/
def importWeights (s : AdvancedDodgerAI) (parsed : NetworkData)
    (rng : ℕ → RngL) (now : ℝ) : Bool × AdvancedDodgerAI :=
  match parsed.metadata with
  | some md =>
    match md.version with
    | some v => if ¬(v = "") then (true, loadWeights s parsed rng now)
      else (false, s)
    | none => (false, s)
  | none => (false, s)

/-! ## Concrete instances used by witnesses and counterexamples -/

/-- An idle world: player at the centre of a 1000×1000 field, no hazards, no
pickups, full lives. -/
def idleWorld : GameState :=
  ⟨1000, 1000, ⟨500, 500, 12, 3⟩, ⟨0, 0⟩, [], [], 0, 3, 3⟩

/-- A layer with all-zero parameters of the given shape. -/
def zeroLayer (inp out : ℕ) : NeuralLayer :=
  ⟨List.replicate out (List.replicate inp 0), List.replicate out 0, inp, out, 0⟩

/-- A fully-initialized agent state with all-zero network parameters and a
zero exploration rate. -/
def zeroExplorationAgent : AdvancedDodgerAI :=
  { inputLayer := zeroLayer 200 1024
    hiddenLayer1 := zeroLayer 1024 1536
    hiddenLayer2 := zeroLayer 1536 1024
    hiddenLayer3 := zeroLayer 1024 768
    valueHead := zeroLayer 768 1
    policyHead := zeroLayer 768 9
    experienceBuffer := ⟨[], 50000, 0⟩
    weightManager := ⟨[], 10⟩
    learningRate := 0.001
    explorationRate := 0
    temperature := 1
    episodeCount := 0
    totalReward := 0
    bestPerformance := 0
    averagePerformance := 0
    lastFeatures := []
    lastAction := 0
    centerTracker := ⟨0, 0, 0, 0, 0⟩
    recentPositions := []
    borderAvoidanceMemory := []
    maxMemorySize := 10 }

/-- A constant per-layer random source. -/
def constRngL : ℕ → RngL := fun _ => ⟨fun _ _ => 0, fun _ => 0⟩

/-- The shape well-formedness of the six layers that
`ensureWeightsInitialized` validates (declared row counts). -/
def layerShapesValid (s : AdvancedDodgerAI) : Prop :=
  s.inputLayer.weights.length = 1024 ∧ s.hiddenLayer1.weights.length = 1536 ∧
  s.hiddenLayer2.weights.length = 1024 ∧ s.hiddenLayer3.weights.length = 768 ∧
  s.valueHead.weights.length = 1 ∧ s.policyHead.weights.length = 9

/-! ## Basic facts about the stable sort -/

lemma sortByDesc_perm {α : Type} (key : α → ℝ) (l : List α) :
    (sortByDesc key l).Perm l :=
  List.perm_insertionSort _ l

lemma sortByDesc_length {α : Type} (key : α → ℝ) (l : List α) :
    (sortByDesc key l).length = l.length :=
  (sortByDesc_perm key l).length_eq

lemma mem_of_mem_sortByDesc {α : Type} {key : α → ℝ} {l : List α} {x : α}
    (h : x ∈ sortByDesc key l) : x ∈ l :=
  (sortByDesc_perm key l).mem_iff.mp h

lemma sortByDesc_sorted {α : Type} (key : α → ℝ) (l : List α) :
    (sortByDesc key l).Sorted fun a b => key b ≤ key a := by
  haveI : IsTotal α fun a b => key b ≤ key a := ⟨fun a b => le_total (key b) (key a)⟩
  haveI : IsTrans α fun a b => key b ≤ key a :=
    ⟨fun _ _ _ h1 h2 => le_trans h2 h1⟩
  exact List.sorted_insertionSort _ l

end Dodger

namespace Dodger

/-! ## Claims C6, C7: the kinematic predictor -/

/-- C6: for every hazard kind and every world state, the kinematic predictor
applied with `Δt = 0` returns the hazard's current position unchanged. -/
theorem predictEnemyPositionPhysics_dt_zero (hazard : Hazard)
    (gameState : GameState) :
    predictEnemyPositionPhysics hazard gameState 0 = (hazard.x, hazard.y) := by
  unfold predictEnemyPositionPhysics
  split_ifs <;> simp

/-- C7: for a tracker hazard with `turnRate = 0` and a unit direction vector
(the data model's well-formedness condition on hazards), the predicted
direction never changes — for every `Δt` and every player position the
prediction is the current position advanced by `direction · baseSpeed · Δt`. -/
theorem predict_tracker_turnRate_zero (hazard : Hazard) (gameState : GameState)
    (deltaTime : ℝ) (hkind : hazard.kind = "tracker")
    (hturn : hazard.turnRate = some 0)
    (hunit : hazard.dirX ^ 2 + hazard.dirY ^ 2 = 1) :
    predictEnemyPositionPhysics hazard gameState deltaTime =
      (hazard.x + hazard.dirX * hazard.baseSpeed * deltaTime,
       hazard.y + hazard.dirY * hazard.baseSpeed * deltaTime) := by
  have hn : hypot hazard.dirX hazard.dirY = 1 := by
    rw [hypot, hunit, Real.sqrt_one]
  have hmin : (1 : ℝ) ⊓ 0 = 0 := min_eq_right zero_le_one
  have hone : jsOr (1 : ℝ) 1 = 1 := by simp [jsOr]
  simp only [predictEnemyPositionPhysics, hkind, hturn, Option.getD_some,
    if_true, eq_self_iff_true, zero_mul, zero_div, hmin, sub_zero, one_mul,
    add_zero, hn, hone, div_one, ite_self]

/-- C7 witness: a tracker at the origin heading right with `turnRate = 0`,
base speed 100 and `Δt = 1` ends up at `(100, 0)`. -/
theorem predict_tracker_turnRate_zero_witness :
    let haz : Hazard := ⟨0, 0, 10, 1, 0, 100, "tracker", 0, 5, some 0, 0, 0⟩
    let g : GameState := ⟨1000, 1000, ⟨500, 500, 12, 3⟩, ⟨0, 0⟩, [], [], 0, 3, 3⟩
    haz.kind = "tracker" ∧ haz.turnRate = some 0 ∧
      haz.dirX ^ 2 + haz.dirY ^ 2 = 1 ∧
      predictEnemyPositionPhysics haz g 1 = (100, 0) := by
  intro haz g
  refine ⟨rfl, rfl, by norm_num, ?_⟩
  have h := predict_tracker_turnRate_zero haz g 1 rfl rfl (by norm_num)
  rw [h]
  norm_num

/-! ## Claim C8: the experience buffer -/

lemma floor_point8_toNat_le (n : ℕ) : (⌊(n : ℝ) * 0.8⌋).toNat ≤ n := by
  have h1 : (n : ℝ) * 0.8 ≤ (n : ℝ) := by
    nlinarith [Nat.cast_nonneg (α := ℝ) n]
  have h2 : ⌊(n : ℝ) * 0.8⌋ ≤ ⌊(n : ℝ)⌋ := Int.floor_le_floor h1
  rw [Int.floor_natCast] at h2
  exact Int.toNat_le.mpr h2

/-- C8: at capacity, `add` preserves the buffer size and overwrites the slot
at the ring position, advancing the position cyclically (so the oldest slots
are evicted first); and `sample n` always returns exactly `min n size`
experiences — all of them drawn from the buffer when the random draws are
genuine `Math.random()` values in `[0, 1)`. -/
theorem experienceBuffer_add_sample_spec :
    (∀ (b : ExperienceBuffer) (e : Experience),
      b.buffer.length = b.maxSize → 0 < b.maxSize →
      (b.add e).buffer.length = b.buffer.length ∧
      (b.add e).buffer = b.buffer.set b.position e ∧
      (b.add e).position = (b.position + 1) % b.maxSize) ∧
    (∀ (b : ExperienceBuffer) (n : ℕ) (rand : ℕ → ℝ),
      (b.sample n rand).length = min n b.buffer.length ∧
      ((∀ i, 0 ≤ rand i ∧ rand i < 1) →
        ∀ e ∈ b.sample n rand, e ∈ b.buffer)) := by
  constructor
  · intro b e hlen _hpos
    have hnot : ¬ b.buffer.length < b.maxSize := by omega
    refine ⟨?_, ?_, ?_⟩ <;> simp [ExperienceBuffer.add, hnot, List.length_set]
  · intro b n rand
    by_cases hlt : b.buffer.length < n
    · constructor
      · simp [ExperienceBuffer.sample, hlt, Nat.min_eq_right (le_of_lt hlt)]
      · intro _ e he
        simpa [ExperienceBuffer.sample, hlt] using he
    · push_neg at hlt
      have hsortlen : (sortByDesc (fun e => e.priority) b.buffer).length =
          b.buffer.length := sortByDesc_length _ _
      have hpc := floor_point8_toNat_le n
      constructor
      · simp only [ExperienceBuffer.sample, if_neg (by omega : ¬ b.buffer.length < n)]
        rw [List.length_append, List.length_take, List.length_map,
          List.length_range, hsortlen]
        omega
      · intro hr e he
        simp only [ExperienceBuffer.sample,
          if_neg (by omega : ¬ b.buffer.length < n), List.mem_append] at he
        rcases he with he | he
        · exact mem_of_mem_sortByDesc (List.mem_of_mem_take he)
        · simp only [List.mem_map, List.mem_range] at he
          obtain ⟨i, hi, rfl⟩ := he
          have hn0 : 0 < n := by omega
          have hlen0 : 0 < b.buffer.length := lt_of_lt_of_le hn0 hlt
          have hfl : (⌊rand i * b.buffer.length⌋).toNat < b.buffer.length := by
            have hcast : (0 : ℝ) < (b.buffer.length : ℝ) := by exact_mod_cast hlen0
            have h1 : rand i * b.buffer.length < b.buffer.length := by
              have := (hr i).2
              have h0 := (hr i).1
              nlinarith
            have h2 : ⌊rand i * (b.buffer.length : ℝ)⌋ < (b.buffer.length : ℤ) := by
              exact_mod_cast Int.floor_lt.mpr (by exact_mod_cast h1)
            omega
          rw [List.getD_eq_getElem _ _ hfl]
          exact List.getElem_mem _

/-- C8 witness: a concrete buffer at capacity 2 and a concrete sample call. -/
theorem experienceBuffer_add_sample_spec_witness :
    let b : ExperienceBuffer := ⟨[default, default], 2, 0⟩
    let rand : ℕ → ℝ := fun _ => 1 / 2
    b.buffer.length = b.maxSize ∧ 0 < b.maxSize ∧
      (∀ i : ℕ, 0 ≤ rand i ∧ rand i < 1) ∧
      (b.add default).buffer.length = b.buffer.length ∧
      (b.sample 1 rand).length = min 1 b.buffer.length := by
  intro b rand
  have h1 : b.buffer.length = b.maxSize := rfl
  have h2 : 0 < b.maxSize := by norm_num
  have h3 : ∀ i : ℕ, 0 ≤ rand i ∧ rand i < 1 := fun _ => by norm_num
  exact ⟨h1, h2, h3,
    (experienceBuffer_add_sample_spec.1 b default h1 h2).1,
    (experienceBuffer_add_sample_spec.2 b 1 rand).1⟩

/-! ## Claim C9: the weight store -/

lemma saveWeights_length_le {α : Type} (m : WeightManager α) (p : ℝ) (d : α)
    (now : ℕ) (noise : String) (hmax : m.maxWeights = 10)
    (hlen : m.weights.length ≤ 10) :
    (m.saveWeights p d now noise).1.weights.length ≤ 10 := by
  simp only [WeightManager.saveWeights]
  split_ifs with h
  · simp only [List.length_take]
    omega
  · simp only [List.length_append, List.length_cons, List.length_nil] at h ⊢
    omega

lemma saveWeights_maxWeights {α : Type} (m : WeightManager α) (p : ℝ) (d : α)
    (now : ℕ) (noise : String) :
    (m.saveWeights p d now noise).1.maxWeights = m.maxWeights := rfl

/-- C9: starting from the empty store, any sequence of `saveWeights`
operations leaves at most 10 snapshots; and a save that pushes the count
beyond 10 retains exactly the prefix of length 10 of the stable descending
sort by performance — a sub-multiset of the 11 candidates in which every
retained entry scores at least as high as every evicted one. -/
theorem weightManager_save_spec :
    (∀ (α : Type) (ops : List (ℝ × α × ℕ × String)),
      (ops.foldl
        (fun m op => (m.saveWeights op.1 op.2.1 op.2.2.1 op.2.2.2).1)
        (WeightManager.initial α)).weights.length ≤ 10) ∧
    (∀ (α : Type) (m : WeightManager α) (p : ℝ) (d : α) (now : ℕ)
        (noise : String),
      m.maxWeights = 10 → m.weights.length = 10 →
      (m.saveWeights p d now noise).1.weights =
        (sortByDesc (fun w : WeightEntry α => w.performance)
          (m.weights ++
            [⟨"weights_" ++ toString now ++ "_" ++ noise, (now : ℝ), p, d⟩])).take
          10 ∧
      ((m.saveWeights p d now noise).1.weights ++
        (sortByDesc (fun w : WeightEntry α => w.performance)
          (m.weights ++
            [⟨"weights_" ++ toString now ++ "_" ++ noise, (now : ℝ), p, d⟩])).drop
          10).Perm
        (m.weights ++
          [⟨"weights_" ++ toString now ++ "_" ++ noise, (now : ℝ), p, d⟩]) ∧
      ∀ x ∈ (m.saveWeights p d now noise).1.weights,
        ∀ y ∈ (sortByDesc (fun w : WeightEntry α => w.performance)
          (m.weights ++
            [⟨"weights_" ++ toString now ++ "_" ++ noise, (now : ℝ), p, d⟩])).drop
          10, y.performance ≤ x.performance) := by
  constructor
  · intro α ops
    suffices h : ∀ (start : WeightManager α), start.maxWeights = 10 →
        start.weights.length ≤ 10 →
        ((ops.foldl
          (fun m op => (m.saveWeights op.1 op.2.1 op.2.2.1 op.2.2.2).1)
          start).weights.length ≤ 10) by
      exact h _ rfl (by simp [WeightManager.initial])
    induction ops with
    | nil => intro start _ hlen; simpa using hlen
    | cons op rest ih =>
      intro start hmax hlen
      simp only [List.foldl_cons]
      refine ih _ ?_ ?_
      · rw [saveWeights_maxWeights]
        exact hmax
      · exact saveWeights_length_le start op.1 op.2.1 op.2.2.1 op.2.2.2 hmax hlen
  · intro α m p d now noise hmax hlen
    have hres : (m.saveWeights p d now noise).1.weights =
        (sortByDesc (fun w : WeightEntry α => w.performance)
          (m.weights ++
            [⟨"weights_" ++ toString now ++ "_" ++ noise, (now : ℝ), p, d⟩])).take
          10 := by
      simp only [WeightManager.saveWeights, hmax]
      rw [if_pos (by simp [hlen])]
    refine ⟨hres, ?_, ?_⟩
    · rw [hres, List.take_append_drop]
      exact sortByDesc_perm _ _
    · intro x hx y hy
      rw [hres] at hx
      have hsorted := sortByDesc_sorted (fun w : WeightEntry α => w.performance)
        (m.weights ++
          [⟨"weights_" ++ toString now ++ "_" ++ noise, (now : ℝ), p, d⟩])
      have hsplit : List.Pairwise
          (fun a b : WeightEntry α => b.performance ≤ a.performance)
          ((sortByDesc (fun w : WeightEntry α => w.performance)
            (m.weights ++
              [⟨"weights_" ++ toString now ++ "_" ++ noise, (now : ℝ), p,
                d⟩])).take 10 ++
           (sortByDesc (fun w : WeightEntry α => w.performance)
            (m.weights ++
              [⟨"weights_" ++ toString now ++ "_" ++ noise, (now : ℝ), p,
                d⟩])).drop 10) := by
        rw [List.take_append_drop]
        exact hsorted
      exact (List.pairwise_append.mp hsplit).2.2 x hx y hy

/-- C9 witness: a store holding 10 concrete snapshots and one more save. -/
theorem weightManager_save_spec_witness :
    let mk : ℝ → WeightEntry Unit := fun p => ⟨"w", 0, p, ()⟩
    let m : WeightManager Unit :=
      ⟨[mk 10, mk 9, mk 8, mk 7, mk 6, mk 5, mk 4, mk 3, mk 2, mk 1], 10⟩
    m.maxWeights = 10 ∧ m.weights.length = 10 ∧
      (m.saveWeights 0 () 0 "z").1.weights =
        (sortByDesc (fun w : WeightEntry Unit => w.performance)
          (m.weights ++ [⟨"weights_" ++ toString (0 : ℕ) ++ "_" ++ "z",
            ((0 : ℕ) : ℝ), 0, ()⟩])).take 10 := by
  intro mk m
  have h1 : m.maxWeights = 10 := rfl
  have h2 : m.weights.length = 10 := rfl
  exact ⟨h1, h2,
    (weightManager_save_spec.2 Unit m 0 () 0 "z" h1 h2).1⟩

end Dodger

namespace Dodger

/-! ## Claim C3: the policy/value network -/

lemma tanh_le_one' (x : ℝ) : Real.tanh x ≤ 1 := by
  rw [Real.tanh_eq_sinh_div_cosh]
  exact le_of_lt ((div_lt_one (Real.cosh_pos x)).mpr (Real.sinh_lt_cosh x))

lemma neg_one_le_tanh' (x : ℝ) : -1 ≤ Real.tanh x := by
  rw [Real.tanh_eq_sinh_div_cosh]
  have h := Real.sinh_lt_cosh (-x)
  rw [Real.sinh_neg, Real.cosh_neg] at h
  have hc := Real.cosh_pos x
  have : -1 < Real.sinh x / Real.cosh x := by
    rw [lt_div_iff₀ hc]
    nlinarith
  exact le_of_lt this

lemma sum_map_div (l : List ℝ) (c : ℝ) :
    (l.map fun x => x / c).sum = l.sum / c := by
  induction l with
  | nil => simp
  | cons a t ih => simp [ih, add_div]

lemma softmax_length (inputs : List ℝ) (t : ℝ) :
    (ActivationFunctions.softmax inputs t).length = inputs.length := by
  simp [ActivationFunctions.softmax]

lemma softmax_exp_sum_pos (inputs : List ℝ) (t : ℝ) (h : inputs ≠ []) :
    0 < ((inputs.map fun x =>
      Real.exp ((x - listMax inputs) / t)).sum) := by
  apply List.sum_pos
  · intro x hx
    simp only [List.mem_map] at hx
    obtain ⟨y, _, rfl⟩ := hx
    exact Real.exp_pos _
  · simpa using h

lemma softmax_nonneg (inputs : List ℝ) (t : ℝ) :
    ∀ p ∈ ActivationFunctions.softmax inputs t, 0 ≤ p := by
  intro p hp
  simp only [ActivationFunctions.softmax] at hp
  rw [List.mem_map] at hp
  obtain ⟨e, he, rfl⟩ := hp
  apply div_nonneg
  · rw [List.mem_map] at he
    obtain ⟨y, _, rfl⟩ := he
    exact (Real.exp_pos _).le
  · apply List.sum_nonneg
    intro x hx
    rw [List.mem_map] at hx
    obtain ⟨y, _, rfl⟩ := hx
    exact (Real.exp_pos _).le

lemma softmax_sum (inputs : List ℝ) (t : ℝ) (h : inputs ≠ []) :
    (ActivationFunctions.softmax inputs t).sum = 1 := by
  simp only [ActivationFunctions.softmax]
  rw [sum_map_div, div_self]
  exact ne_of_gt (softmax_exp_sum_pos inputs t h)

lemma uniform_result_spec :
    uniformPolicy.length = 9 ∧ (∀ p ∈ uniformPolicy, 0 ≤ p) ∧
      uniformPolicy.sum = 1 ∧ -1 ≤ (0 : ℝ) ∧ (0 : ℝ) ≤ 1 := by
  refine ⟨rfl, ?_, ?_, by norm_num, by norm_num⟩
  · intro p hp
    rw [List.eq_of_mem_replicate hp]
    norm_num
  · rw [uniformPolicy, List.sum_replicate]
    norm_num [ACTION_COUNT]

lemma forward_result_spec (s : AdvancedDodgerAI) (inputs : List ℝ)
    (now : ℝ) (rng : ℕ → RngL) :
    ((s.forward inputs now rng).1.2).length = 9 ∧
    (∀ p ∈ (s.forward inputs now rng).1.2, 0 ≤ p) ∧
    (s.forward inputs now rng).1.2.sum = 1 ∧
    -1 ≤ (s.forward inputs now rng).1.1 ∧ (s.forward inputs now rng).1.1 ≤ 1 := by
  suffices h : ∀ r : (ℝ × List ℝ) × AdvancedDodgerAI,
      s.forward inputs now rng = r →
      r.1.2.length = 9 ∧ (∀ p ∈ r.1.2, 0 ≤ p) ∧ r.1.2.sum = 1 ∧
        -1 ≤ r.1.1 ∧ r.1.1 ≤ 1 by
    exact h _ rfl
  intro r hr
  unfold AdvancedDodgerAI.forward at hr
  repeat' first
    | split at hr
    | simp only [] at hr
  all_goals subst hr
  all_goals try exact uniform_result_spec
  rename_i hpo
  rw [not_ne_iff] at hpo
  refine ⟨(softmax_length _ _).trans hpo, softmax_nonneg _ _,
    softmax_sum _ _ ?_, neg_one_le_tanh' _, tanh_le_one' _⟩
  intro h0
  rw [h0] at hpo
  simp [ACTION_COUNT] at hpo

/-- C3: for every agent state, input vector, time and random source, the
policy returned by `forward` has exactly 9 entries, is componentwise
nonnegative and sums to exactly 1 (in the real-number model the floating
tolerance is 0), and the value lies in `[-1, 1]`; the defensive fallback
paths return value `0` and the uniform distribution, which satisfy the same
bounds. -/
theorem forward_policy_distribution (s : AdvancedDodgerAI) (inputs : List ℝ)
    (now : ℝ) (rng : ℕ → RngL) :
    ((s.forward inputs now rng).1.2).length = 9 ∧
    (∀ p ∈ (s.forward inputs now rng).1.2, 0 ≤ p) ∧
    (s.forward inputs now rng).1.2.sum = 1 ∧
    -1 ≤ (s.forward inputs now rng).1.1 ∧ (s.forward inputs now rng).1.1 ≤ 1 :=
  forward_result_spec s inputs now rng

end Dodger

namespace Dodger

/-! ## Claim C2: the feature extractor -/

/-- C2: for every world state (any number of hazards and pickups, including
zero) and every difficulty, `extractFeatures` returns exactly 200 features.
In the real-number model every entry is a real number, so the "finite"
part of the claim (no `NaN`/`Infinity` escapes) is inherent in the model;
the length invariant is enforced by the final zero-pad / truncate. -/
theorem extractFeatures_length (gameState : GameState) (difficulty : ℝ) :
    (extractFeatures gameState difficulty).length = 200 := by
  simp only [extractFeatures]
  rw [List.length_take, List.length_append, List.length_replicate]
  omega

end Dodger

namespace Dodger

/-! ## Claims C10 and C4: the speed model -/

lemma calculateUltraFastSpeed_range (g : GameState) (features : List ℝ)
    (action : ℕ) (l c : Prop) :
    1 ≤ calculateUltraFastSpeed g features action l c ∧
      calculateUltraFastSpeed g features action l c ≤ 5 := by
  unfold calculateUltraFastSpeed
  constructor
  · exact le_trans (by norm_num) (le_max_left (1.0 : ℝ) _)
  · exact max_le (by norm_num) (le_trans (min_le_left _ _) (by norm_num))

/-- C10: the speed returned by `decide` always lies in `[1.0, 5.0]` — in
particular it is never 0, even on a safe hold, because the final clamp takes
the maximum with 1.0. -/
theorem decide_speed_range (s : AdvancedDodgerAI) (gameState : GameState)
    (difficulty : ℝ) (training : Bool) (now : ℝ) (rand : ℕ → ℝ)
    (rngL : ℕ → RngL) :
    1 ≤ ((decide s gameState difficulty training now rand rngL).1).speed ∧
      ((decide s gameState difficulty training now rand rngL).1).speed ≤ 5 := by
  have h : ((decide s gameState difficulty training now rand rngL).1).speed =
      calculateUltraFastSpeed gameState (extractFeatures gameState difficulty)
        ((decide s gameState difficulty training now rand rngL).1).action
        (gameState.lives / gameState.maxLives ≤ 0.6)
        (gameState.lives / gameState.maxLives ≤ 0.3) := rfl
  rw [h]
  exact calculateUltraFastSpeed_range ..

/-- C4 counterexample: in the idle world the safe-to-stay predicate holds
and the chosen action is hold, yet the returned speed is 1, not 0 — the
final clamp `max 1.0 (min 5.0 ·)` overrides the zeroing. -/
theorem speed_not_zero_on_safe_hold :
    isSafeToStay idleWorld ∧
      calculateUltraFastSpeed idleWorld [] 0 False False = 1 ∧ (1 : ℝ) ≠ 0 := by
  have hsafe : isSafeToStay idleWorld := by
    unfold isSafeToStay idleWorld listMinInf
    norm_num
  refine ⟨hsafe, ?_, by norm_num⟩
  unfold calculateUltraFastSpeed
  simp only [if_pos hsafe]
  norm_num

/-- C4 amended: when the chosen action is hold and the conservative
safe-to-stay predicate holds, the speed variable is zeroed but the final
clamp into `[1.0, 5.0]` makes the returned speed exactly 1.0 (the clamp
minimum), not 0. -/
theorem calculateUltraFastSpeed_safe_hold (g : GameState) (features : List ℝ)
    (l c : Prop) (h : isSafeToStay g) :
    calculateUltraFastSpeed g features 0 l c = 1 := by
  unfold calculateUltraFastSpeed
  simp only [if_pos h]
  norm_num

/-- C4 witness: the amended claim applied to the idle world. -/
theorem calculateUltraFastSpeed_safe_hold_witness :
    isSafeToStay idleWorld ∧
      calculateUltraFastSpeed idleWorld [] 0 False False = 1 := by
  have hsafe : isSafeToStay idleWorld := by
    unfold isSafeToStay idleWorld listMinInf
    norm_num
  exact ⟨hsafe, calculateUltraFastSpeed_safe_hold idleWorld [] False False hsafe⟩

end Dodger

namespace Dodger

/-! ## Claim C5: weight export / import round-trip -/

lemma jsOr_zero_default (x : ℝ) : jsOr x 0 = x := by
  unfold jsOr
  split_ifs with h
  · exact h.symm
  · rfl

lemma jsOr_of_ne {x : ℝ} (d : ℝ) (hx : x ≠ 0) : jsOr x d = x := if_neg hx

lemma ensureWeightsInitialized_id (t : AdvancedDodgerAI) (rng : ℕ → RngL)
    (now : ℝ) (ht : layerShapesValid t) :
    ensureWeightsInitialized t rng now = t := by
  obtain ⟨h1, h2, h3, h4, h5, h6⟩ := ht
  unfold ensureWeightsInitialized
  simp [h1, h2, h3, h4, h5, h6, ACTION_COUNT]

/-- C5 counterexample: a well-shaped agent state with `explorationRate = 0`
does not round-trip — `loadWeights` restores the exploration rate as
`metadata.explorationRate || 0.1`, so the imported state carries `0.1`. -/
theorem export_import_explorationRate_lost :
    zeroExplorationAgent.explorationRate = 0 ∧
      ((importWeights zeroExplorationAgent (exportWeights zeroExplorationAgent)
        constRngL 0).2).explorationRate = 0.1 ∧ (0.1 : ℝ) ≠ 0 := by
  refine ⟨rfl, ?_, by norm_num⟩
  have hv : ¬(("2.0" : String) = "") := by decide
  have hshape : layerShapesValid zeroExplorationAgent := by
    refine ⟨?_, ?_, ?_, ?_, ?_, ?_⟩ <;>
      exact List.length_replicate _ _
  have hload : (importWeights zeroExplorationAgent
      (exportWeights zeroExplorationAgent) constRngL 0).2 =
      ensureWeightsInitialized
        { zeroExplorationAgent with
            episodeCount := jsOr zeroExplorationAgent.episodeCount 0
            averagePerformance := jsOr zeroExplorationAgent.averagePerformance 0
            explorationRate := jsOr zeroExplorationAgent.explorationRate 0.1 }
        constRngL 0 := by
    simp only [importWeights, exportWeights, loadWeights, if_pos hv]
  rw [hload, ensureWeightsInitialized_id]
  · show jsOr zeroExplorationAgent.explorationRate 0.1 = 0.1
    show jsOr 0 0.1 = 0.1
    unfold jsOr
    norm_num
  · exact hshape

lemma importWeights_export_eq (s : AdvancedDodgerAI) (rng : ℕ → RngL)
    (now : ℝ) :
    importWeights s (exportWeights s) rng now =
      (true, loadWeights s (exportWeights s) rng now) := by
  have hv : ¬(("2.0" : String) = "") := by decide
  show (if ¬(("2.0" : String) = "") then
      (true, loadWeights s (exportWeights s) rng now)
    else (false, s)) = (true, loadWeights s (exportWeights s) rng now)
  rw [if_pos hv]

lemma loadWeights_export_eq (s : AdvancedDodgerAI) (rng : ℕ → RngL)
    (now : ℝ) :
    loadWeights s (exportWeights s) rng now =
      ensureWeightsInitialized
        { s with episodeCount := jsOr s.episodeCount 0
                 averagePerformance := jsOr s.averagePerformance 0
                 explorationRate := jsOr s.explorationRate 0.1 } rng now := by
  obtain ⟨il, h1, h2, h3, vh, ph, eb, wm, lr, er, te, ec, tr, bp, ap, lf, la,
    ct, rp, bam, mm⟩ := s
  rfl

/-- C5 amended: for every agent state whose six layers have their declared
row counts and whose exploration rate is nonzero, exporting and importing
the document reproduces the layer parameters and the metadata exactly
(`bestPerformance` is never read back, but a same-state round-trip leaves it
untouched); with `explorationRate = 0` the import falls back to `0.1`, as
the counterexample shows. -/
theorem export_import_roundtrip (s : AdvancedDodgerAI) (rng : ℕ → RngL)
    (now : ℝ) (hshape : layerShapesValid s) (hexp : s.explorationRate ≠ 0) :
    (importWeights s (exportWeights s) rng now).1 = true ∧
    ((importWeights s (exportWeights s) rng now).2.inputLayer.weights =
        s.inputLayer.weights ∧
      (importWeights s (exportWeights s) rng now).2.inputLayer.biases =
        s.inputLayer.biases) ∧
    ((importWeights s (exportWeights s) rng now).2.hiddenLayer1.weights =
        s.hiddenLayer1.weights ∧
      (importWeights s (exportWeights s) rng now).2.hiddenLayer1.biases =
        s.hiddenLayer1.biases) ∧
    ((importWeights s (exportWeights s) rng now).2.hiddenLayer2.weights =
        s.hiddenLayer2.weights ∧
      (importWeights s (exportWeights s) rng now).2.hiddenLayer2.biases =
        s.hiddenLayer2.biases) ∧
    ((importWeights s (exportWeights s) rng now).2.hiddenLayer3.weights =
        s.hiddenLayer3.weights ∧
      (importWeights s (exportWeights s) rng now).2.hiddenLayer3.biases =
        s.hiddenLayer3.biases) ∧
    ((importWeights s (exportWeights s) rng now).2.valueHead.weights =
        s.valueHead.weights ∧
      (importWeights s (exportWeights s) rng now).2.valueHead.biases =
        s.valueHead.biases) ∧
    ((importWeights s (exportWeights s) rng now).2.policyHead.weights =
        s.policyHead.weights ∧
      (importWeights s (exportWeights s) rng now).2.policyHead.biases =
        s.policyHead.biases) ∧
    (importWeights s (exportWeights s) rng now).2.episodeCount =
      s.episodeCount ∧
    (importWeights s (exportWeights s) rng now).2.averagePerformance =
      s.averagePerformance ∧
    (importWeights s (exportWeights s) rng now).2.bestPerformance =
      s.bestPerformance ∧
    (importWeights s (exportWeights s) rng now).2.explorationRate =
      s.explorationRate := by
  have hmid : layerShapesValid
      { s with episodeCount := jsOr s.episodeCount 0
               averagePerformance := jsOr s.averagePerformance 0
               explorationRate := jsOr s.explorationRate 0.1 } := hshape
  have hres : (importWeights s (exportWeights s) rng now).2 =
      { s with episodeCount := jsOr s.episodeCount 0
               averagePerformance := jsOr s.averagePerformance 0
               explorationRate := jsOr s.explorationRate 0.1 } := by
    rw [importWeights_export_eq, loadWeights_export_eq,
      ensureWeightsInitialized_id _ _ _ hmid]
  have hfst : (importWeights s (exportWeights s) rng now).1 = true := by
    rw [importWeights_export_eq]
  rw [hres]
  refine ⟨hfst, ⟨rfl, rfl⟩, ⟨rfl, rfl⟩, ⟨rfl, rfl⟩, ⟨rfl, rfl⟩, ⟨rfl, rfl⟩,
    ⟨rfl, rfl⟩, jsOr_zero_default _, jsOr_zero_default _, rfl,
    jsOr_of_ne _ hexp⟩

/-- C5 witness: the amended round-trip applied to a concrete well-shaped
agent with exploration rate `0.1`. -/
theorem export_import_roundtrip_witness :
    layerShapesValid { zeroExplorationAgent with explorationRate := 0.1 } ∧
      ({ zeroExplorationAgent with
        explorationRate := (0.1 : ℝ) }).explorationRate ≠ 0 ∧
      (importWeights { zeroExplorationAgent with explorationRate := 0.1 }
        (exportWeights { zeroExplorationAgent with explorationRate := 0.1 })
        constRngL 0).1 = true ∧
      (importWeights { zeroExplorationAgent with explorationRate := 0.1 }
        (exportWeights { zeroExplorationAgent with explorationRate := 0.1 })
        constRngL 0).2.explorationRate =
        ({ zeroExplorationAgent with
          explorationRate := (0.1 : ℝ) }).explorationRate := by
  have hshape : layerShapesValid
      { zeroExplorationAgent with explorationRate := 0.1 } := by
    refine ⟨?_, ?_, ?_, ?_, ?_, ?_⟩ <;>
      exact List.length_replicate _ _
  have hexp : ({ zeroExplorationAgent with
      explorationRate := (0.1 : ℝ) }).explorationRate ≠ 0 := by
    show (0.1 : ℝ) ≠ 0
    norm_num
  have h := export_import_roundtrip
    { zeroExplorationAgent with explorationRate := 0.1 } constRngL 0 hshape hexp
  exact ⟨hshape, hexp, h.1, h.2.2.2.2.2.2.2.2.2.2⟩

end Dodger

namespace Dodger

/-! ## Claim C1: well-formedness of the decision -/

lemma foldl_preserve {α β : Type} (P : α → Prop) (f : α → β → α)
    (l : List β) (init : α) (h0 : P init)
    (hstep : ∀ a b, b ∈ l → P a → P (f a b)) : P (l.foldl f init) := by
  induction l generalizing init with
  | nil => exact h0
  | cons b t ih =>
    exact ih (f init b) (hstep init b (List.mem_cons_self b t) h0)
      (fun a c hc ha => hstep a c (List.mem_cons_of_mem b hc) ha)

lemma getD_nat_le {l : List ℕ} {d k : ℕ} (n : ℕ) (hl : ∀ a ∈ l, a ≤ k)
    (hd : d ≤ k) : l.getD n d ≤ k := by
  rw [List.getD_eq_getElem?_getD]
  cases he : l[n]? with
  | none => exact hd
  | some a =>
    rw [Option.getD_some]
    obtain ⟨h, hget⟩ := List.getElem?_eq_some.mp he
    exact hl a (hget ▸ List.getElem_mem h)

lemma getActionForDirection_le (dx dy : ℝ) :
    getActionForDirection dx dy ≤ 8 := by
  unfold getActionForDirection
  simp only []
  refine getD_nat_le _ ?_ (by norm_num)
  intro a ha
  fin_cases ha <;> norm_num

lemma calculateEscapeDirections_le (g : GameState) (t : Option Hazard) :
    ∀ a ∈ calculateEscapeDirections g t, a ≤ 8 := by
  intro a ha
  simp only [calculateEscapeDirections, List.mem_map, List.mem_filter,
    List.mem_range] at ha
  obtain ⟨i, ⟨hi, _⟩, rfl⟩ := ha
  omega

lemma analyzeRealTimeThreat_escape_le (g : GameState) :
    ∀ a ∈ (analyzeRealTimeThreat g).escapeDirections, a ≤ 8 := by
  intro a ha
  have he : (analyzeRealTimeThreat g).escapeDirections =
      calculateEscapeDirections g (analyzeRealTimeThreat g).nearestThreat := rfl
  rw [he] at ha
  exact calculateEscapeDirections_le g _ a ha

lemma headD_le {l : List ℕ} (h : ∀ a ∈ l, a ≤ 8) : l.headD 0 ≤ 8 := by
  cases l with
  | nil => norm_num
  | cons a t => exact h a (List.mem_cons_self a t)

lemma getEmergencyAvoidanceAction_le (g : GameState) (ta : ThreatAnalysis)
    (hesc : ∀ a ∈ ta.escapeDirections, a ≤ 8) :
    getEmergencyAvoidanceAction g ta ≤ 8 := by
  unfold getEmergencyAvoidanceAction
  split
  · refine foldl_preserve (fun acc : ℕ × EReal => acc.1 ≤ 8) _ _ _
      (headD_le hesc) ?_
    intro acc b hb hacc
    simp only []
    split
    · exact hesc b hb
    · exact hacc
  · split
    · simp only []
      split
      · exact getActionForDirection_le _ _
      · norm_num
    · norm_num

lemma getPredictiveAvoidanceAction_le (g : GameState) (ta : ThreatAnalysis) :
    getPredictiveAvoidanceAction g ta ≤ 8 :=
  getActionForDirection_le _ _

lemma getEmergencyPickupAction_le (g : GameState) (p : Pickup) (dx dy : ℝ) :
    getEmergencyPickupAction g p dx dy ≤ 8 :=
  getActionForDirection_le _ _

lemma getSafePickupAction_le (g : GameState) (p : Pickup) (dx dy : ℝ) :
    getSafePickupAction g p dx dy ≤ 8 := by
  unfold getSafePickupAction
  split
  · exact getActionForDirection_le _ _
  · exact getActionForDirection_le _ _

lemma getRiskyDashAction_le (g : GameState) (p : Pickup) (dx dy : ℝ)
    (ta : ThreatAnalysis) : getRiskyDashAction g p dx dy ta ≤ 8 := by
  unfold getRiskyDashAction
  simp only []
  split
  · exact getActionForDirection_le _ _
  · exact getActionForDirection_le _ _

lemma getDefensivePickupAction_le (g : GameState) (p : Pickup) (dx dy : ℝ) :
    getDefensivePickupAction g p dx dy ≤ 8 := by
  unfold getDefensivePickupAction
  simp only []
  split
  · split
    · split
      · exact getActionForDirection_le _ _
      · exact getActionForDirection_le _ _
    · exact getActionForDirection_le _ _
  · exact getActionForDirection_le _ _

lemma getCalculatedRiskAction_le (g : GameState) (p : Pickup) (dx dy : ℝ)
    (ta : ThreatAnalysis) : getCalculatedRiskAction g p dx dy ta ≤ 8 := by
  unfold getCalculatedRiskAction
  split
  · split
    · exact getActionForDirection_le _ _
    · norm_num
  · exact getActionForDirection_le _ _

lemma getSmartPickupAction_le (g : GameState) (pa : PickupAnalysis)
    (ta : ThreatAnalysis) : getSmartPickupAction g pa ta ≤ 8 := by
  unfold getSmartPickupAction
  split
  · norm_num
  · simp only []
    split
    · norm_num
    · split
      · exact getEmergencyPickupAction_le ..
      · split
        · exact getSafePickupAction_le ..
        · split
          · exact getRiskyDashAction_le ..
          · split
            · exact getDefensivePickupAction_le ..
            · exact getCalculatedRiskAction_le ..

lemma getBestCenterAction_le (g : GameState) : getBestCenterAction g ≤ 8 := by
  unfold getBestCenterAction
  simp only []
  split
  · norm_num
  · split
    · norm_num
    · refine foldl_preserve (fun acc : ℕ × EReal => acc.1 ≤ 8) _ _ _
        (by norm_num) ?_
      intro acc i hi hacc
      split
      · rw [List.mem_range'_1] at hi
        show i ≤ 8
        omega
      · exact hacc

lemma findAlternativeActions_le (g : GameState) (orig : ℕ) :
    ∀ a ∈ findAlternativeActions g orig, a ≤ 8 := by
  intro a ha
  simp only [findAlternativeActions, List.mem_map] at ha
  obtain ⟨p, hp, rfl⟩ := ha
  have hp3 := (sortByDesc_perm (fun p : ℕ × ℝ => p.2) _).mem_iff.mp
    (List.mem_of_mem_take hp)
  simp only [List.mem_map, List.mem_filter, List.mem_range'_1] at hp3
  obtain ⟨b, ⟨hb, _⟩, rfl⟩ := hp3
  show b ≤ 8
  omega

lemma applyAntiOscillationMemory_le (s : AdvancedDodgerAI) (g : GameState)
    (action : ℕ) (t : ℝ) (h : action ≤ 8) :
    (applyAntiOscillationMemory s g action t).1 ≤ 8 := by
  unfold applyAntiOscillationMemory
  simp only []
  split
  · exact h
  · split
    · split
      · exact h
      · rename_i a tail heq
        exact findAlternativeActions_le g action a
          (heq ▸ List.mem_cons_self a tail)
    · exact h

lemma applyBoundaryAvoidance_le (g : GameState) (action : ℕ) (r : ℝ)
    (h : action ≤ 8) : applyBoundaryAvoidance g action r ≤ 8 := by
  unfold applyBoundaryAvoidance
  simp only []
  repeat' first
    | exact getBestCenterAction_le g
    | exact h
    | split

lemma applyAdvancedSafetyChecks_le (g : GameState) (action : ℕ)
    (ta : ThreatAnalysis) (hesc : ∀ a ∈ ta.escapeDirections, a ≤ 8)
    (h : action ≤ 8) : applyAdvancedSafetyChecks g action ta ≤ 8 := by
  unfold applyAdvancedSafetyChecks
  simp only []
  repeat' first
    | exact getBestCenterAction_le g
    | exact headD_le hesc
    | exact h
    | split

lemma enum_fst_le_of_mem {l : List ℝ} {p : ℕ × ℝ} (hp : p ∈ l.enum)
    (hlen : l.length = 9) : p.1 ≤ 8 := by
  rw [List.mem_enum_iff_getElem?] at hp
  obtain ⟨hlt, _⟩ := List.getElem?_eq_some.mp hp
  omega

lemma getIntelligentCenterAction_le (g : GameState) (policy : List ℝ)
    (ta : ThreatAnalysis) (hlen : policy.length = 9) :
    getIntelligentCenterAction g policy ta ≤ 8 := by
  unfold getIntelligentCenterAction
  simp only []
  split
  · exact getActionForDirection_le _ _
  · split
    · rename_i p hp
      exact enum_fst_le_of_mem
        ((sortByDesc_perm (fun q : ℕ × ℝ => q.2) _).mem_iff.mp
          (List.mem_of_find?_eq_some hp)) hlen
    · cases hsa : sortByDesc (fun q : ℕ × ℝ => q.2) policy.enum with
      | nil => exact Nat.zero_le 8
      | cons q tail =>
        show q.1 ≤ 8
        exact enum_fst_le_of_mem
          ((sortByDesc_perm (fun q : ℕ × ℝ => q.2) _).mem_iff.mp
            (hsa ▸ List.mem_cons_self q tail)) hlen

lemma explorationAction_le {r : ℝ} (h0 : 0 ≤ r) (h1 : r < 1) :
    (⌊r * 8⌋ + 1).toNat ≤ 8 := by
  have hlt : ⌊r * 8⌋ < 8 := Int.floor_lt.mpr (by push_cast; linarith)
  have hge : (0 : ℤ) ≤ ⌊r * 8⌋ := Int.floor_nonneg.mpr (by nlinarith)
  omega

lemma getUltraResponseBias_length (g : GameState) (l c : Prop) :
    (getUltraResponseBias g l c).length = 9 := by
  unfold getUltraResponseBias
  simp only []
  rw [List.length_map, List.length_range]

/-- C1: for every world state and agent state, `decide` returns a
well-formed decision: the action is an integer in `[0, 8]` (every branch of
the priority cascade — emergency avoidance, predictive avoidance, pickup
pursuit, centre seeking, network argmax, exploration — and the safety,
boundary and anti-oscillation adjustments stay inside the 9-entry action
table, including all degraded fallbacks on empty hazard, pickup or
escape-direction lists), the movement vector equals the fixed 9-entry
lookup at that action, and the heuristic bias vector has exactly 9 entries.
The random draws are assumed to lie in `[0, 1)` as `Math.random`'s are;
totality (internal anomalies never remove availability) is inherent in the
total Lean model of `decide`. -/
theorem decide_wellFormed (s : AdvancedDodgerAI) (gameState : GameState)
    (difficulty : ℝ) (training : Bool) (now : ℝ) (rand : ℕ → ℝ)
    (rngL : ℕ → RngL) (hrand : ∀ i, 0 ≤ rand i ∧ rand i < 1) :
    ((decide s gameState difficulty training now rand rngL).1).action ≤ 8 ∧
    (((decide s gameState difficulty training now rand rngL).1).mvx,
      ((decide s gameState difficulty training now rand rngL).1).mvy) =
      actionMapInt.getD
        ((decide s gameState difficulty training now rand rngL).1).action
        (0, 0) ∧
    (((decide s gameState difficulty training now rand rngL).1).hBias).length
      = 9 := by
  suffices h : ∀ r : Decision × AdvancedDodgerAI,
      decide s gameState difficulty training now rand rngL = r →
      r.1.action ≤ 8 ∧ (r.1.mvx, r.1.mvy) =
        actionMapInt.getD r.1.action (0, 0) ∧ r.1.hBias.length = 9 by
    exact h _ rfl
  intro r hr
  unfold decide at hr
  simp only [] at hr
  subst hr
  refine ⟨?_, rfl, ?_⟩
  · show (applyAntiOscillationMemory _ _ _ _).1 ≤ 8
    refine applyAntiOscillationMemory_le _ _ _ _ ?_
    refine applyBoundaryAvoidance_le _ _ _ ?_
    refine applyAdvancedSafetyChecks_le _ _ _
      (analyzeRealTimeThreat_escape_le gameState) ?_
    split
    · exact getEmergencyAvoidanceAction_le _ _
        (analyzeRealTimeThreat_escape_le gameState)
    · split
      · exact getPredictiveAvoidanceAction_le _ _
      · split
        · exact getSmartPickupAction_le _ _ _
        · split
          · exact explorationAction_le (hrand 1).1 (hrand 1).2
          · split
            · split
              · exact getIntelligentCenterAction_le _ _ _
                  (forward_result_spec _ _ _ _).1
              · rename_i m tail heq
                show m.1 ≤ 8
                have hm := (sortByDesc_perm (fun q : ℕ × ℝ => q.2) _).mem_iff.mp
                  (heq ▸ List.mem_cons_self m tail)
                exact enum_fst_le_of_mem (List.mem_filter.mp hm).1
                  (forward_result_spec _ _ _ _).1
            · exact getIntelligentCenterAction_le _ _ _
                (forward_result_spec _ _ _ _).1
  · show (getUltraResponseBias _ _ _).length = 9
    exact getUltraResponseBias_length _ _ _

/-- C1 witness: the well-formedness of the decision at a concrete agent and
world, with all random draws equal to 1/2. -/
theorem decide_wellFormed_witness :
    (∀ i : ℕ, 0 ≤ (fun _ : ℕ => (1 : ℝ) / 2) i ∧
      (fun _ : ℕ => (1 : ℝ) / 2) i < 1) ∧
    (((decide zeroExplorationAgent idleWorld 1 false 0
        (fun _ : ℕ => (1 : ℝ) / 2) constRngL).1).action ≤ 8 ∧
      (((decide zeroExplorationAgent idleWorld 1 false 0
          (fun _ : ℕ => (1 : ℝ) / 2) constRngL).1).mvx,
        ((decide zeroExplorationAgent idleWorld 1 false 0
          (fun _ : ℕ => (1 : ℝ) / 2) constRngL).1).mvy) =
        actionMapInt.getD
          ((decide zeroExplorationAgent idleWorld 1 false 0
            (fun _ : ℕ => (1 : ℝ) / 2) constRngL).1).action (0, 0) ∧
      (((decide zeroExplorationAgent idleWorld 1 false 0
          (fun _ : ℕ => (1 : ℝ) / 2) constRngL).1).hBias).length = 9) := by
  have hrand : ∀ i : ℕ, 0 ≤ (fun _ : ℕ => (1 : ℝ) / 2) i ∧
      (fun _ : ℕ => (1 : ℝ) / 2) i < 1 := by
    intro i
    constructor <;> norm_num
  exact ⟨hrand, decide_wellFormed zeroExplorationAgent idleWorld 1 false 0
    (fun _ : ℕ => (1 : ℝ) / 2) constRngL hrand⟩

end Dodger
